import Mathlib

/-!
Verification of the VAX floating-point conversion routines of the
`vaxdata` package (conversions.go, vaxtofloat32.go, vaxtofloat64.go and the
accompanying writer/encoder file).

Machine integers (`uint32`, `uint64`) are embedded as `Nat`, with wrap-around
arithmetic made explicit by `% 2 ^ 32` where the Go code may overflow, and the
Go operators `&`, `|`, `>>`, `<<` rendered as `&&&`, `|||`, `>>>`, `<<<`.
Go's `(value, error)` returns become `Nat × Bool` pairs, the `Bool` recording
whether the returned `error` is non-nil.  IEEE floating-point values are
handled purely at the bit level (`math.Float32bits` / `math.Float32frombits`
are the identity on the bit pattern), so a `float32` is a `Nat` below `2 ^ 32`
and a `float64` a `Nat` below `2 ^ 64`.
-/

namespace Vaxdata

/-- Sign bit of a 32-bit word (conversions.go). -/
def SignBit : Nat := 0x80000000

/-- VAX F_Float exponent mask (conversions.go). -/
def VaxFExponentMask : Nat := 0x7F800000

/-- VAX F_Float exponent size (conversions.go). -/
def VaxFExponentSize : Nat := 8

/-- VAX F_Float exponent bias (conversions.go). -/
def VaxFExponentBias : Nat := 1 <<< (VaxFExponentSize - 1)

/-- VAX F_Float mantissa mask (conversions.go). -/
def VaxFMantissaMask : Nat := 0x007FFFFF

/-- VAX F_Float mantissa size (conversions.go). -/
def VaxFMantissaSize : Nat := 23

/-- VAX F_Float hidden bit (conversions.go). -/
def VaxFHiddenBit : Nat := 1 <<< VaxFMantissaSize

/-- VAX G_Float exponent mask (conversions.go). -/
def VaxGExponentMask : Nat := 0x7FF00000

/-- VAX G_Float exponent size (conversions.go). -/
def VaxGExponentSize : Nat := 11

/-- VAX G_Float exponent bias (conversions.go). -/
def VaxGExponentBias : Nat := 1 <<< (VaxGExponentSize - 1)

/-- VAX G_Float mantissa mask (conversions.go). -/
def VaxGMantissaMask : Nat := 0x000FFFFF

/-- VAX G_Float mantissa size (conversions.go). -/
def VaxGMantissaSize : Nat := 20

/-- VAX G_Float hidden bit (conversions.go). -/
def VaxGHiddenBit : Nat := 1 <<< VaxGMantissaSize

/-- IEEE S_floating exponent mask (conversions.go). -/
def IeeeSExponentMask : Nat := 0x7F800000

/-- IEEE S_floating exponent size (conversions.go). -/
def IeeeSExponentSize : Nat := 8

/-- IEEE S_floating exponent bias (conversions.go). -/
def IeeeSExponentBias : Nat := (1 <<< (IeeeSExponentSize - 1)) - 1

/-- IEEE S_floating mantissa mask (conversions.go). -/
def IeeeSMantissaMask : Nat := 0x007FFFFF

/-- IEEE S_floating mantissa size (conversions.go). -/
def IeeeSMantissaSize : Nat := 23

/-- IEEE S_floating hidden bit (conversions.go). -/
def IeeeSHiddenBit : Nat := 1 <<< IeeeSMantissaSize

/-- IEEE T_floating exponent mask (conversions.go). -/
def IeeeTExponentMask : Nat := 0x7FF00000

/-- IEEE T_floating exponent size (conversions.go). -/
def IeeeTExponentSize : Nat := 11

/-- IEEE T_floating exponent bias (conversions.go). -/
def IeeeTExponentBias : Nat := (1 <<< (IeeeTExponentSize - 1)) - 1

/-- IEEE T_floating mantissa mask (conversions.go). -/
def IeeeTMantissaMask : Nat := 0x000FFFFF

/-- IEEE T_floating mantissa size (conversions.go). -/
def IeeeTMantissaSize : Nat := 20

/-- IEEE T_floating hidden bit (conversions.go). -/
def IeeeTHiddenBit : Nat := 1 <<< IeeeTMantissaSize

/-- Exponent adjustment used by the F_Float routines:
`1 + VaxFExponentBias - IeeeSExponentBias` (a positive `int32`, value 2). -/
def FExponentAdjustment : Nat := 1 + VaxFExponentBias - IeeeSExponentBias

/-- In-place exponent adjustment for F_Float, `ExponentAdjustment << IeeeSMantissaSize`
(vaxtofloat32.go). -/
def FInPlaceExponentAdjustment : Nat := FExponentAdjustment <<< IeeeSMantissaSize

/-- Exponent adjustment used by the G_Float routines:
`1 + VaxGExponentBias - IeeeTExponentBias` (a positive `int32`, value 2). -/
def GExponentAdjustment : Nat := 1 + VaxGExponentBias - IeeeTExponentBias

/-- In-place exponent adjustment for G_Float, `ExponentAdjustment << IeeeTMantissaSize`
(vaxtofloat64.go). -/
def GInPlaceExponentAdjustment : Nat := GExponentAdjustment <<< IeeeTMantissaSize

/-- Embedding of Go `binary.BigEndian.Uint16` on two bytes. -/
def uint16BigEndian (b0 b1 : Nat) : Nat := (b0 <<< 8) ||| b1

/-- Embedding of `uint32FromVaxbits` (conversions.go): reads a 32-bit VAX
doubleword, given as four bytes, into a little-endian-register value:
`uint32(binary.BigEndian.Uint16(b[0:2])) | uint32(binary.BigEndian.Uint16(b[2:4]))<<16`. -/
def uint32FromVaxbits (b0 b1 b2 b3 : Nat) : Nat :=
  uint16BigEndian b0 b1 ||| (uint16BigEndian b2 b3 <<< 16)

/-- Embedding of `uint32FromVax` (conversions.go): swaps the 16-bit words in a
32-bit doubleword, `uint32(v>>16) | (uint32(v&0x0FFFF) << 16)`. -/
def uint32FromVax (v : Nat) : Nat :=
  (v >>> 16) ||| ((v &&& 0xFFFF) <<< 16)

/-- Embedding of Go `binary.BigEndian.PutUint32`: the four bytes of a 32-bit
word in big-endian order. -/
def putUint32BigEndian (x : Nat) : Nat × Nat × Nat × Nat :=
  ((x >>> 24) &&& 0xFF, (x >>> 16) &&& 0xFF, (x >>> 8) &&& 0xFF, x &&& 0xFF)

/-- Embedding of Go `binary.BigEndian.PutUint64`: the eight bytes of a 64-bit
word in big-endian order. -/
def putUint64BigEndian (x : Nat) :
    Nat × Nat × Nat × Nat × Nat × Nat × Nat × Nat :=
  ((x >>> 56) &&& 0xFF, (x >>> 48) &&& 0xFF, (x >>> 40) &&& 0xFF,
   (x >>> 32) &&& 0xFF, (x >>> 24) &&& 0xFF, (x >>> 16) &&& 0xFF,
   (x >>> 8) &&& 0xFF, x &&& 0xFF)

/-- Embedding of `Float32fromVaxFFloat` (vaxtofloat32.go).  The four arguments
are the bytes of `buf`; the result pairs the bit pattern handed to
`math.Float32frombits` with the error flag (`true` iff the returned error is
non-nil).  In the source, `e` is an `int32`; after masking it is nonnegative,
and `e >>= MantissaSize` followed by `e -= ExponentAdjustment` is embedded as
a single subtraction on `Int`.  The `uint32` subtraction
`vaxpart1 - InPlaceExponentAdjustment` wraps modulo `2 ^ 32`, which the
embedding makes explicit. -/
def Float32fromVaxFFloat (b0 b1 b2 b3 : Nat) : Nat × Bool :=
  let vaxpart1 := uint32FromVaxbits b0 b1 b2 b3
  let e0 := vaxpart1 &&& VaxFExponentMask
  if e0 = 0 then
    if vaxpart1 &&& SignBit = SignBit then
      (0, true)
    else
      (0, false)
  else
    let e : Int := ((e0 >>> VaxFMantissaSize : Nat) : Int) - (FExponentAdjustment : Int)
    if e > 0 then
      ((vaxpart1 + (2 ^ 32 - FInPlaceExponentAdjustment)) % 2 ^ 32, false)
    else
      ((vaxpart1 &&& SignBit) |||
        ((VaxFHiddenBit ||| (vaxpart1 &&& VaxFMantissaMask)) >>> (1 - e).toNat), false)

/-- Embedding of `Float64fromVaxGFloat` (vaxtofloat64.go).  The eight arguments
are the bytes of `buf`; the result pairs the 64-bit pattern
`uint64(ieeepart1)<<32 | uint64(ieeepart2)` with the error flag.  In the
subnormal branch only `e ∈ {-1, 0}` is reachable (the biased VAX exponent is
1 or 2 there), so the Go shift counts `uint32(1-e)` and `uint32(31+e)` are the
nonnegative `(1 - e).toNat` and `(31 + e).toNat`; `vaxpart1 << uint32(31+e)`
wraps modulo `2 ^ 32`. -/
def Float64fromVaxGFloat (b0 b1 b2 b3 b4 b5 b6 b7 : Nat) : Nat × Bool :=
  let vaxpart2 := uint32FromVaxbits b0 b1 b2 b3
  let vaxpart1 := uint32FromVaxbits b4 b5 b6 b7
  let e0 := vaxpart1 &&& VaxGExponentMask
  if e0 = 0 then
    if vaxpart1 &&& SignBit = SignBit then
      (0, true)
    else
      (0, false)
  else
    let e : Int := ((e0 >>> VaxGMantissaSize : Nat) : Int) - (GExponentAdjustment : Int)
    if e > 0 then
      let ieeepart1 := (vaxpart1 + (2 ^ 32 - GInPlaceExponentAdjustment)) % 2 ^ 32
      let ieeepart2 := vaxpart2
      ((ieeepart1 <<< 32) ||| ieeepart2, false)
    else
      let vaxpart1 := (vaxpart1 &&& (SignBit ||| VaxGMantissaMask)) ||| VaxGHiddenBit
      let ieeepart1 := (vaxpart1 &&& SignBit) |||
        ((vaxpart1 &&& (VaxGHiddenBit ||| VaxGMantissaMask)) >>> (1 - e).toNat)
      let ieeepart2 := ((vaxpart1 <<< (31 + e).toNat) % 2 ^ 32) |||
        (vaxpart2 >>> (1 - e).toNat)
      ((ieeepart1 <<< 32) ||| ieeepart2, false)

/-- Embedding of the denormalized-input loop of `VaxFFloatfromFloat32`:
`for (m & HiddenBit) == 0 { m <<= 1; e -= 1 }`, with `m` and `e` both
`uint32` (so `m <<= 1` and `e -= 1` wrap modulo `2 ^ 32`).  The Go loop is
unbounded; it terminates within 23 iterations whenever `m ≠ 0` on entry,
which is the only way the surrounding code reaches it, so a fuel of 32
makes the embedding total without changing any reachable behaviour. -/
def normalizeF : Nat → Nat → Nat → Nat × Nat
  | 0, m, e => (m, e)
  | fuel + 1, m, e =>
    if m &&& VaxFHiddenBit = 0 then
      normalizeF fuel ((m <<< 1) % 2 ^ 32) ((e + (2 ^ 32 - 1)) % 2 ^ 32)
    else
      (m, e)

/-- Embedding of `VaxFFloatfromFloat32` (the encoder source file).  The
argument is `math.Float32bits f`; the result pairs the returned `VaxFFloat`
bit pattern with the error flag.  Note that in the source `e` is a `uint32`
throughout this function, so `e -= 1` in the denormalized loop wraps around
and the test `e <= 0` after `e += ExponentAdjustment` holds only for `e = 0`;
the embedding keeps `e : Nat` to reproduce exactly that behaviour
(`e ≤ 0 ↔ e = 0` on `Nat`).  `^SignBit` is the `uint32` complement
`0x7FFFFFFF`, and `^SignBit` as a result value is `0x7FFFFFFF` as well. -/
def VaxFFloatfromFloat32 (f : Nat) : Nat × Bool :=
  let ieeepart1 := f
  if ieeepart1 &&& 0x7FFFFFFF = 0 then
    (uint32FromVax 0, false)
  else if ieeepart1 &&& IeeeSExponentMask = IeeeSExponentMask then
    (uint32FromVax ((ieeepart1 &&& SignBit) ||| VaxFExponentMask), true)
  else
    let e := (ieeepart1 &&& IeeeSExponentMask) >>> VaxFMantissaSize
    let m := ieeepart1 &&& VaxFMantissaMask
    let me :=
      if e = 0 then
        let r := normalizeF 32 ((m <<< 1) % 2 ^ 32) e
        (r.1 &&& VaxFMantissaMask, r.2)
      else
        (m, e)
    let m := me.1
    let e := (me.2 + FExponentAdjustment) % 2 ^ 32
    if e ≤ 0 then
      (uint32FromVax 0, false)
    else if e > 2 * VaxFExponentBias - 1 then
      (uint32FromVax ((ieeepart1 &&& SignBit) ||| 0x7FFFFFFF), true)
    else
      (uint32FromVax ((ieeepart1 &&& SignBit) ||| (e <<< VaxFMantissaSize) ||| m), false)

/-- Embedding of the denormalized-input loop of `VaxGFloatfromFloat64`:
`for (m & HiddenBit) == 0 { m = (m << 1) | (vaxpart2 >> 31); vaxpart2 <<= 1;
e -= 1 }` with all three variables `uint32`.  The Go loop is unbounded; it
terminates within 52 iterations whenever the 52-bit mantissa spread over
`m` and `vaxpart2` is nonzero on entry, which is the only way the
surrounding code reaches it, so a fuel of 64 makes the embedding total
without changing any reachable behaviour. -/
def normalizeG : Nat → Nat → Nat → Nat → Nat × Nat × Nat
  | 0, m, vaxpart2, e => (m, vaxpart2, e)
  | fuel + 1, m, vaxpart2, e =>
    if m &&& VaxGHiddenBit = 0 then
      normalizeG fuel (((m <<< 1) % 2 ^ 32) ||| (vaxpart2 >>> 31))
        ((vaxpart2 <<< 1) % 2 ^ 32) ((e + (2 ^ 32 - 1)) % 2 ^ 32)
    else
      (m, vaxpart2, e)

/-- Embedding of `VaxGFloatfromFloat64` (the encoder source file).  The
argument is `math.Float64bits f`; the result pairs the returned `VaxGFloat`
64-bit pattern `(uint64(uint32FromVax(vaxpart2)) << 32) |
uint64(uint32FromVax(vaxpart1))` with the error flag.  As in the F_Float
encoder, `e` is a `uint32` in the source, so `e -= 1` wraps and `e <= 0`
holds only for `e = 0`.  The intermediate triple holds
`(vaxpart1, vaxpart2, err)` just before the final word swap. -/
def VaxGFloatfromFloat64 (f : Nat) : Nat × Bool :=
  let ieeepart1 := f >>> 32
  let vaxpart2 := f &&& 0xFFFFFFFF
  let ve : Nat × Nat × Bool :=
    if (ieeepart1 &&& 0x7FFFFFFF) ||| vaxpart2 = 0 then
      (0, vaxpart2, false)
    else if ieeepart1 &&& IeeeTExponentMask = IeeeTExponentMask then
      ((ieeepart1 &&& SignBit) ||| VaxGExponentMask, 0, true)
    else
      let e := (ieeepart1 &&& IeeeTExponentMask) >>> VaxGMantissaSize
      let m := ieeepart1 &&& VaxGMantissaMask
      let mve :=
        if e = 0 then
          let r := normalizeG 64 (((m <<< 1) % 2 ^ 32) ||| (vaxpart2 >>> 31))
            ((vaxpart2 <<< 1) % 2 ^ 32) e
          (r.1 &&& VaxGMantissaMask, r.2.1, r.2.2)
        else
          (m, vaxpart2, e)
      let m := mve.1
      let vaxpart2 := mve.2.1
      let e := (mve.2.2 + GExponentAdjustment) % 2 ^ 32
      if e ≤ 0 then
        (0, 0, false)
      else if e > 2 * VaxGExponentBias - 1 then
        ((ieeepart1 &&& SignBit) ||| 0x7FFFFFFF, 0xFFFFFFFF, true)
      else
        ((ieeepart1 &&& SignBit) ||| (e <<< VaxGMantissaSize) ||| m, vaxpart2, false)
  ((uint32FromVax ve.2.1 <<< 32) ||| uint32FromVax ve.1, ve.2.2)

example : VaxFFloatfromFloat32 0x3F800000 = (0x00004080, false) := by decide
example : VaxFFloatfromFloat32 0xBF800000 = (0x0000C080, false) := by decide
example : VaxFFloatfromFloat32 0x40600000 = (0x00004160, false) := by decide
example : VaxFFloatfromFloat32 0x02081CEA = (0x1CEA0308, false) := by decide
example : VaxFFloatfromFloat32 1 = (0xFFFF7FFF, true) := by decide
example : VaxFFloatfromFloat32 0x00100000 = (0, false) := by decide
example : VaxGFloatfromFloat64 0x3FF0000000000000 = (0x0000000000004010, false) := by
  decide
example : VaxGFloatfromFloat64 0x400921FB54442D18 = (0x2D18544421FB4029, false) := by
  decide
example : VaxGFloatfromFloat64 1 = (0xFFFFFFFFFFFF7FFF, true) := by decide

example : Float32fromVaxFFloat 0x00 0x00 0x40 0x80 = (0x3F800000, false) := by decide
example : Float32fromVaxFFloat 0x00 0x00 0xC0 0x80 = (0xBF800000, false) := by decide
example : Float32fromVaxFFloat 0x1C 0xEA 0x03 0x08 = (0x02081CEA, false) := by decide
example : Float32fromVaxFFloat 0x00 0x00 0x80 0x00 = (0, true) := by decide
example :
    Float64fromVaxGFloat 0x2D 0x18 0x54 0x44 0x21 0xFB 0x40 0x29 =
      (0x400921FB54442D18, false) := by decide

/-!  Arithmetic characterizations of the bit-level operations.  These turn
`&&&`, `|||`, `>>>`, `<<<` applied to the masks of conversions.go into `/`,
`%`, `*`, `+` expressions that `omega` can reason about. -/

/-- Conjunction with a contiguous mask of `k` bits starting at bit `n`
extracts the corresponding field. -/
theorem land_shifted_mask (x k n : Nat) :
    x &&& (2 ^ k - 1) * 2 ^ n = x / 2 ^ n % 2 ^ k * 2 ^ n := by
  apply Nat.eq_of_testBit_eq
  intro i
  rw [← Nat.shiftRight_eq_div_pow, Nat.mul_comm ((2 : Nat) ^ k - 1),
    Nat.mul_comm (x >>> n % 2 ^ k)]
  by_cases h : n ≤ i
  · simp only [Nat.testBit_and, Nat.testBit_mul_pow_two, Nat.testBit_mod_two_pow,
      Nat.testBit_shiftRight, Nat.testBit_two_pow_sub_one, ge_iff_le, h,
      decide_True, Bool.true_and, Nat.add_sub_cancel' h]
    cases hx : x.testBit i <;> simp
  · simp only [Nat.testBit_and, Nat.testBit_mul_pow_two, ge_iff_le, h,
      decide_False, Bool.false_and, Bool.and_false]

/-- Disjoint bitwise or is addition. -/
theorem lor_disjoint {b : Nat} (n a : Nat) (hb : b < 2 ^ n) :
    a * 2 ^ n ||| b = a * 2 ^ n + b := by
  rw [Nat.mul_comm a, ← Nat.mul_add_lt_is_or hb]

/-- Bitwise or of a nonzero value is nonzero. -/
theorem lor_ne_zero_left {a : Nat} (b : Nat) (h : a ≠ 0) : a ||| b ≠ 0 := by
  intro hz
  obtain ⟨i, hi⟩ := Nat.ne_zero_implies_bit_true h
  have hb : (a ||| b).testBit i = true := by
    simp [Nat.testBit_or, hi]
  rw [hz, Nat.zero_testBit] at hb
  exact Bool.false_ne_true hb

theorem land_0xFFFF (x : Nat) : x &&& 0xFFFF = x % 2 ^ 16 := by
  have h : (0xFFFF : Nat) = 2 ^ 16 - 1 := by norm_num
  rw [h, Nat.and_pow_two_sub_one_eq_mod]

theorem land_0xFF (x : Nat) : x &&& 0xFF = x % 2 ^ 8 := by
  have h : (0xFF : Nat) = 2 ^ 8 - 1 := by norm_num
  rw [h, Nat.and_pow_two_sub_one_eq_mod]

theorem land_0xFFFFFFFF (x : Nat) : x &&& 0xFFFFFFFF = x % 2 ^ 32 := by
  have h : (0xFFFFFFFF : Nat) = 2 ^ 32 - 1 := by norm_num
  rw [h, Nat.and_pow_two_sub_one_eq_mod]

theorem land_0x7FFFFFFF (x : Nat) : x &&& 0x7FFFFFFF = x % 2 ^ 31 := by
  have h : (0x7FFFFFFF : Nat) = 2 ^ 31 - 1 := by norm_num
  rw [h, Nat.and_pow_two_sub_one_eq_mod]

theorem land_VaxFMantissaMask (x : Nat) : x &&& VaxFMantissaMask = x % 2 ^ 23 := by
  have h : VaxFMantissaMask = 2 ^ 23 - 1 := by decide
  rw [h, Nat.and_pow_two_sub_one_eq_mod]

theorem land_VaxGMantissaMask (x : Nat) : x &&& VaxGMantissaMask = x % 2 ^ 20 := by
  have h : VaxGMantissaMask = 2 ^ 20 - 1 := by decide
  rw [h, Nat.and_pow_two_sub_one_eq_mod]

theorem land_SignBit (x : Nat) : x &&& SignBit = x / 2 ^ 31 % 2 * 2 ^ 31 := by
  have h : SignBit = (2 ^ 1 - 1) * 2 ^ 31 := by decide
  rw [h, land_shifted_mask]
  norm_num

theorem land_VaxFExponentMask (x : Nat) :
    x &&& VaxFExponentMask = x / 2 ^ 23 % 2 ^ 8 * 2 ^ 23 := by
  have h : VaxFExponentMask = (2 ^ 8 - 1) * 2 ^ 23 := by decide
  rw [h, land_shifted_mask]

theorem land_VaxGExponentMask (x : Nat) :
    x &&& VaxGExponentMask = x / 2 ^ 20 % 2 ^ 11 * 2 ^ 20 := by
  have h : VaxGExponentMask = (2 ^ 11 - 1) * 2 ^ 20 := by decide
  rw [h, land_shifted_mask]

theorem land_IeeeSExponentMask (x : Nat) :
    x &&& IeeeSExponentMask = x / 2 ^ 23 % 2 ^ 8 * 2 ^ 23 := by
  have h : IeeeSExponentMask = (2 ^ 8 - 1) * 2 ^ 23 := by decide
  rw [h, land_shifted_mask]

theorem land_IeeeTExponentMask (x : Nat) :
    x &&& IeeeTExponentMask = x / 2 ^ 20 % 2 ^ 11 * 2 ^ 20 := by
  have h : IeeeTExponentMask = (2 ^ 11 - 1) * 2 ^ 20 := by decide
  rw [h, land_shifted_mask]

/-- Conjunction with `SignBit ||| VaxGMantissaMask` (mask `0x800FFFFF`). -/
theorem land_SignBit_or_VaxGMantissaMask (x : Nat) :
    x &&& (SignBit ||| VaxGMantissaMask) = x / 2 ^ 31 % 2 * 2 ^ 31 + x % 2 ^ 20 := by
  rw [Nat.and_or_distrib_left, land_SignBit, land_VaxGMantissaMask]
  rw [show x / 2 ^ 31 % 2 * 2 ^ 31 = x / 2 ^ 31 % 2 * 2 ^ 11 * 2 ^ 20 by ring]
  rw [lor_disjoint 20 _ (Nat.mod_lt _ (by norm_num))]

/-- Conjunction with `VaxGHiddenBit ||| VaxGMantissaMask` (mask `0x1FFFFF`). -/
theorem land_VaxGHidden_or_Mantissa (x : Nat) :
    x &&& (VaxGHiddenBit ||| VaxGMantissaMask) = x % 2 ^ 21 := by
  have h : VaxGHiddenBit ||| VaxGMantissaMask = 2 ^ 21 - 1 := by decide
  rw [h, Nat.and_pow_two_sub_one_eq_mod]

/-- Arithmetic form of `uint16BigEndian` on bytes. -/
theorem uint16BigEndian_eq (b0 b1 : Nat) (h1 : b1 < 256) :
    uint16BigEndian b0 b1 = b0 * 2 ^ 8 + b1 := by
  unfold uint16BigEndian
  rw [Nat.shiftLeft_eq, lor_disjoint 8 _ (by omega)]

/-- Arithmetic form of `uint32FromVaxbits` on bytes: the two 16-bit words
land in swapped order. -/
theorem uint32FromVaxbits_eq (b0 b1 b2 b3 : Nat)
    (h0 : b0 < 256) (h1 : b1 < 256) (h2 : b2 < 256) (h3 : b3 < 256) :
    uint32FromVaxbits b0 b1 b2 b3 =
      (b2 * 2 ^ 8 + b3) * 2 ^ 16 + (b0 * 2 ^ 8 + b1) := by
  unfold uint32FromVaxbits
  rw [uint16BigEndian_eq _ _ h1, uint16BigEndian_eq _ _ h3, Nat.shiftLeft_eq,
    Nat.or_comm, lor_disjoint 16 _ (by omega)]

/-- Arithmetic form of `uint32FromVax`: the 16-bit halves are exchanged. -/
theorem uint32FromVax_eq (v : Nat) (hv : v < 2 ^ 32) :
    uint32FromVax v = v % 2 ^ 16 * 2 ^ 16 + v / 2 ^ 16 := by
  unfold uint32FromVax
  rw [land_0xFFFF, Nat.shiftLeft_eq, Nat.shiftRight_eq_div_pow,
    Nat.or_comm, lor_disjoint 16 _ (by omega)]

theorem uint32FromVax_lt (v : Nat) (hv : v < 2 ^ 32) : uint32FromVax v < 2 ^ 32 := by
  rw [uint32FromVax_eq v hv]
  omega

theorem uint32FromVax_uint32FromVax (v : Nat) (hv : v < 2 ^ 32) :
    uint32FromVax (uint32FromVax v) = v := by
  rw [uint32FromVax_eq v hv, uint32FromVax_eq _ (by omega)]
  omega

/-- Serializing a 32-bit word big-endian and unpacking the four bytes as a VAX
doubleword performs exactly one 16-bit word swap. -/
theorem uint32FromVaxbits_putUint32BigEndian (x : Nat) (hx : x < 2 ^ 32) :
    uint32FromVaxbits (putUint32BigEndian x).1 (putUint32BigEndian x).2.1
      (putUint32BigEndian x).2.2.1 (putUint32BigEndian x).2.2.2 =
      uint32FromVax x := by
  show uint32FromVaxbits ((x >>> 24) &&& 0xFF) ((x >>> 16) &&& 0xFF)
      ((x >>> 8) &&& 0xFF) (x &&& 0xFF) = uint32FromVax x
  rw [Nat.shiftRight_eq_div_pow, Nat.shiftRight_eq_div_pow,
    Nat.shiftRight_eq_div_pow, land_0xFF, land_0xFF, land_0xFF, land_0xFF,
    uint32FromVaxbits_eq _ _ _ _ (by omega) (by omega) (by omega) (by omega),
    uint32FromVax_eq _ hx]
  omega

/-- Unpacking the first four big-endian bytes of a 64-bit word word-swaps its
high 32-bit half. -/
theorem uint32FromVaxbits_putUint64BigEndian_hi (x : Nat) (hx : x < 2 ^ 64) :
    uint32FromVaxbits (putUint64BigEndian x).1 (putUint64BigEndian x).2.1
      (putUint64BigEndian x).2.2.1 (putUint64BigEndian x).2.2.2.1 =
      uint32FromVax (x / 2 ^ 32) := by
  show uint32FromVaxbits ((x >>> 56) &&& 0xFF) ((x >>> 48) &&& 0xFF)
      ((x >>> 40) &&& 0xFF) ((x >>> 32) &&& 0xFF) = uint32FromVax (x / 2 ^ 32)
  rw [Nat.shiftRight_eq_div_pow, Nat.shiftRight_eq_div_pow,
    Nat.shiftRight_eq_div_pow, Nat.shiftRight_eq_div_pow,
    land_0xFF, land_0xFF, land_0xFF, land_0xFF,
    uint32FromVaxbits_eq _ _ _ _ (by omega) (by omega) (by omega) (by omega),
    uint32FromVax_eq _ (by omega)]
  omega

/-- Unpacking the last four big-endian bytes of a 64-bit word word-swaps its
low 32-bit half. -/
theorem uint32FromVaxbits_putUint64BigEndian_lo (x : Nat) (hx : x < 2 ^ 64) :
    uint32FromVaxbits (putUint64BigEndian x).2.2.2.2.1 (putUint64BigEndian x).2.2.2.2.2.1
      (putUint64BigEndian x).2.2.2.2.2.2.1 (putUint64BigEndian x).2.2.2.2.2.2.2 =
      uint32FromVax (x % 2 ^ 32) := by
  show uint32FromVaxbits ((x >>> 24) &&& 0xFF) ((x >>> 16) &&& 0xFF)
      ((x >>> 8) &&& 0xFF) (x &&& 0xFF) = uint32FromVax (x % 2 ^ 32)
  rw [Nat.shiftRight_eq_div_pow, Nat.shiftRight_eq_div_pow,
    Nat.shiftRight_eq_div_pow, land_0xFF, land_0xFF, land_0xFF, land_0xFF,
    uint32FromVaxbits_eq _ _ _ _ (by omega) (by omega) (by omega) (by omega),
    uint32FromVax_eq _ (by omega)]
  omega

/-!  Branch-level evaluation of `Float32fromVaxFFloat` on an unpacked input
decomposed into sign `s`, biased VAX exponent `e` and mantissa field `m`. -/

/-- Zero-exponent input: the decoder returns bit pattern 0, with the error
flag set exactly when the sign bit is set (VAX reserved operand). -/
theorem decodeF_zero_exponent (b0 b1 b2 b3 s m : Nat)
    (hv : uint32FromVaxbits b0 b1 b2 b3 = s * 2 ^ 31 + m)
    (hs : s < 2) (hm : m < 2 ^ 23) :
    Float32fromVaxFFloat b0 b1 b2 b3 = (0, decide (s = 1)) := by
  have hmask : (s * 2 ^ 31 + m) &&& VaxFExponentMask = 0 := by
    rw [land_VaxFExponentMask]; omega
  have hsign : (s * 2 ^ 31 + m) &&& SignBit = s * 2 ^ 31 := by
    rw [land_SignBit]; omega
  simp only [Float32fromVaxFFloat, hv, hmask, hsign]
  rw [if_pos trivial]
  rcases (show s = 0 ∨ s = 1 by omega) with h | h <;> subst h
  · rw [if_neg (by decide)]
    rfl
  · rw [if_pos (by decide)]
    rfl

/-- Normalized branch, `e' = e - 2 > 0`: the exponent field is adjusted in
place and nothing else changes. -/
theorem decodeF_normal (b0 b1 b2 b3 s e m : Nat)
    (hv : uint32FromVaxbits b0 b1 b2 b3 = s * 2 ^ 31 + e * 2 ^ 23 + m)
    (hs : s < 2) (he : 3 ≤ e) (he2 : e < 2 ^ 8) (hm : m < 2 ^ 23) :
    Float32fromVaxFFloat b0 b1 b2 b3 = (s * 2 ^ 31 + (e - 2) * 2 ^ 23 + m, false) := by
  have hmask : (s * 2 ^ 31 + e * 2 ^ 23 + m) &&& VaxFExponentMask = e * 2 ^ 23 := by
    rw [land_VaxFExponentMask]; omega
  have hshift : (e * 2 ^ 23) >>> VaxFMantissaSize = e := by
    show (e * 2 ^ 23) >>> 23 = e
    rw [Nat.shiftRight_eq_div_pow]; omega
  have hadj : FExponentAdjustment = 2 := by decide
  have hinp : FInPlaceExponentAdjustment = 2 ^ 24 := by decide
  simp only [Float32fromVaxFFloat, hv, hmask, hshift, hadj, hinp, Nat.cast_ofNat]
  rw [if_neg (show ¬e * 2 ^ 23 = 0 by omega),
    if_pos (show (e : Int) - 2 > 0 by omega)]
  rw [show s * 2 ^ 31 + e * 2 ^ 23 + m + (2 ^ 32 - 2 ^ 24) =
    (s * 2 ^ 31 + (e - 2) * 2 ^ 23 + m) + 2 ^ 32 by omega,
    Nat.add_mod_right, Nat.mod_eq_of_lt (by omega)]

/-- Subnormal branch, `e' = e - 2 ≤ 0` with `e ≠ 0`: the hidden-bit-prefixed
mantissa is shifted right by `1 - e' = 3 - e` and the sign is kept. -/
theorem decodeF_subnormal (b0 b1 b2 b3 s e m : Nat)
    (hv : uint32FromVaxbits b0 b1 b2 b3 = s * 2 ^ 31 + e * 2 ^ 23 + m)
    (hs : s < 2) (he : 1 ≤ e) (he2 : e ≤ 2) (hm : m < 2 ^ 23) :
    Float32fromVaxFFloat b0 b1 b2 b3 =
      (s * 2 ^ 31 + (2 ^ 23 + m) / 2 ^ (3 - e), false) := by
  have hmask : (s * 2 ^ 31 + e * 2 ^ 23 + m) &&& VaxFExponentMask = e * 2 ^ 23 := by
    rw [land_VaxFExponentMask]; omega
  have hshift : (e * 2 ^ 23) >>> VaxFMantissaSize = e := by
    show (e * 2 ^ 23) >>> 23 = e
    rw [Nat.shiftRight_eq_div_pow]; omega
  have hadj : FExponentAdjustment = 2 := by decide
  have hsign : (s * 2 ^ 31 + e * 2 ^ 23 + m) &&& SignBit = s * 2 ^ 31 := by
    rw [land_SignBit]; omega
  have hman : (s * 2 ^ 31 + e * 2 ^ 23 + m) &&& VaxFMantissaMask = m := by
    rw [land_VaxFMantissaMask]; omega
  have hhid : VaxFHiddenBit ||| m = 2 ^ 23 + m := by
    show 1 <<< 23 ||| m = 2 ^ 23 + m
    rw [Nat.shiftLeft_eq, lor_disjoint 23 _ hm, Nat.one_mul]
  simp only [Float32fromVaxFFloat, hv, hmask, hshift, hadj, hsign, hman, hhid,
    Nat.cast_ofNat]
  rw [if_neg (show ¬e * 2 ^ 23 = 0 by omega),
    if_neg (show ¬((e : Int) - 2 > 0) by omega)]
  rw [show ((1 : Int) - ((e : Int) - 2)).toNat = 3 - e from by omega,
    Nat.shiftRight_eq_div_pow]
  have ht : (2 ^ 23 + m) / 2 ^ (3 - e) < 2 ^ 31 :=
    lt_of_le_of_lt (Nat.div_le_self _ _) (by omega)
  rw [lor_disjoint 31 s ht]

/-!  Branch-level evaluation of `Float64fromVaxGFloat` on an unpacked input:
the second doubleword (`vaxpart1` in the source) is decomposed into sign `s`,
biased VAX exponent `e` and the high 20 mantissa bits `mhi`; the first
doubleword (`vaxpart2`) holds the low 32 mantissa bits `v2`. -/

/-- Zero-exponent input: the decoder returns bit pattern 0, with the error
flag set exactly when the sign bit is set (VAX reserved operand). -/
theorem decodeG_zero_exponent (b0 b1 b2 b3 b4 b5 b6 b7 s mhi : Nat)
    (hv1 : uint32FromVaxbits b4 b5 b6 b7 = s * 2 ^ 31 + mhi)
    (hs : s < 2) (hm : mhi < 2 ^ 20) :
    Float64fromVaxGFloat b0 b1 b2 b3 b4 b5 b6 b7 = (0, decide (s = 1)) := by
  have hmask : (s * 2 ^ 31 + mhi) &&& VaxGExponentMask = 0 := by
    rw [land_VaxGExponentMask]; omega
  have hsign : (s * 2 ^ 31 + mhi) &&& SignBit = s * 2 ^ 31 := by
    rw [land_SignBit]; omega
  simp only [Float64fromVaxGFloat, hv1, hmask, hsign]
  rw [if_pos trivial]
  rcases (show s = 0 ∨ s = 1 by omega) with h | h <;> subst h
  · rw [if_neg (by decide)]
    rfl
  · rw [if_pos (by decide)]
    rfl

/-- Normalized branch, `e' = e - 2 > 0`: the exponent field of the high word
is adjusted in place and the low mantissa word is passed through. -/
theorem decodeG_normal (b0 b1 b2 b3 b4 b5 b6 b7 s e mhi v2 : Nat)
    (hv2 : uint32FromVaxbits b0 b1 b2 b3 = v2)
    (hv1 : uint32FromVaxbits b4 b5 b6 b7 = s * 2 ^ 31 + e * 2 ^ 20 + mhi)
    (hs : s < 2) (he : 3 ≤ e) (he2 : e < 2 ^ 11) (hm : mhi < 2 ^ 20)
    (hlo : v2 < 2 ^ 32) :
    Float64fromVaxGFloat b0 b1 b2 b3 b4 b5 b6 b7 =
      ((s * 2 ^ 31 + (e - 2) * 2 ^ 20 + mhi) * 2 ^ 32 + v2, false) := by
  have hmask : (s * 2 ^ 31 + e * 2 ^ 20 + mhi) &&& VaxGExponentMask = e * 2 ^ 20 := by
    rw [land_VaxGExponentMask]; omega
  have hshift : (e * 2 ^ 20) >>> VaxGMantissaSize = e := by
    show (e * 2 ^ 20) >>> 20 = e
    rw [Nat.shiftRight_eq_div_pow]; omega
  have hadj : GExponentAdjustment = 2 := by decide
  have hinp : GInPlaceExponentAdjustment = 2 ^ 21 := by decide
  simp only [Float64fromVaxGFloat, hv2, hv1, hmask, hshift, hadj, hinp, Nat.cast_ofNat]
  rw [if_neg (show ¬e * 2 ^ 20 = 0 by omega),
    if_pos (show (e : Int) - 2 > 0 by omega)]
  rw [show s * 2 ^ 31 + e * 2 ^ 20 + mhi + (2 ^ 32 - 2 ^ 21) =
    (s * 2 ^ 31 + (e - 2) * 2 ^ 20 + mhi) + 2 ^ 32 by omega,
    Nat.add_mod_right, Nat.mod_eq_of_lt (by omega),
    Nat.shiftLeft_eq, lor_disjoint 32 _ hlo]

/-- Subnormal branch, `e' = e - 2 ≤ 0` with `e ≠ 0`: the 53-bit
hidden-bit-prefixed mantissa spanning the two words is shifted right by
`1 - e' = 3 - e`, chopped, and the sign is kept. -/
theorem decodeG_subnormal (b0 b1 b2 b3 b4 b5 b6 b7 s e mhi v2 : Nat)
    (hv2 : uint32FromVaxbits b0 b1 b2 b3 = v2)
    (hv1 : uint32FromVaxbits b4 b5 b6 b7 = s * 2 ^ 31 + e * 2 ^ 20 + mhi)
    (hs : s < 2) (he : 1 ≤ e) (he2 : e ≤ 2) (hm : mhi < 2 ^ 20)
    (hlo : v2 < 2 ^ 32) :
    Float64fromVaxGFloat b0 b1 b2 b3 b4 b5 b6 b7 =
      (s * 2 ^ 63 + (2 ^ 52 + mhi * 2 ^ 32 + v2) / 2 ^ (3 - e), false) := by
  have hmask : (s * 2 ^ 31 + e * 2 ^ 20 + mhi) &&& VaxGExponentMask = e * 2 ^ 20 := by
    rw [land_VaxGExponentMask]; omega
  have hshift : (e * 2 ^ 20) >>> VaxGMantissaSize = e := by
    show (e * 2 ^ 20) >>> 20 = e
    rw [Nat.shiftRight_eq_div_pow]; omega
  have hadj : GExponentAdjustment = 2 := by decide
  have hsm : (s * 2 ^ 31 + e * 2 ^ 20 + mhi) &&& (SignBit ||| VaxGMantissaMask) =
      s * 2 ^ 31 + mhi := by
    rw [land_SignBit_or_VaxGMantissaMask]; omega
  have hvp : (s * 2 ^ 31 + mhi) ||| VaxGHiddenBit = s * 2 ^ 31 + 2 ^ 20 + mhi := by
    rw [show s * 2 ^ 31 + mhi = s * 2 ^ 31 ||| mhi from (lor_disjoint 31 s (by omega)).symm,
      Nat.or_assoc, show VaxGHiddenBit = 1 * 2 ^ 20 from by decide,
      Nat.or_comm mhi, lor_disjoint 20 1 hm, lor_disjoint 31 s (by omega)]
    omega
  have hsign : (s * 2 ^ 31 + 2 ^ 20 + mhi) &&& SignBit = s * 2 ^ 31 := by
    rw [land_SignBit]; omega
  have hhm : (s * 2 ^ 31 + 2 ^ 20 + mhi) &&& (VaxGHiddenBit ||| VaxGMantissaMask) =
      2 ^ 20 + mhi := by
    rw [land_VaxGHidden_or_Mantissa]; omega
  have htn1 : ((1 : Int) - ((e : Int) - 2)).toNat = 3 - e := by omega
  have htn2 : ((31 : Int) + ((e : Int) - 2)).toNat = 29 + e := by omega
  simp only [Float64fromVaxGFloat, hv2, hv1, hmask, hshift, hadj, hsm, hvp, hsign,
    hhm, htn1, htn2, Nat.cast_ofNat]
  rw [if_neg (show ¬e * 2 ^ 20 = 0 by omega),
    if_neg (show ¬((e : Int) - 2 > 0) by omega)]
  simp only [Nat.shiftLeft_eq, Nat.shiftRight_eq_div_pow]
  rcases (show e = 1 ∨ e = 2 by omega) with h | h <;> subst h
  · rw [show (3 : Nat) - 1 = 2 from rfl, show (29 : Nat) + 1 = 30 from rfl,
      lor_disjoint 31 s (show (2 ^ 20 + mhi) / 2 ^ 2 < 2 ^ 31 by omega),
      show (s * 2 ^ 31 + 2 ^ 20 + mhi) * 2 ^ 30 % 2 ^ 32 = mhi % 2 ^ 2 * 2 ^ 30 from
        by omega,
      lor_disjoint 30 _ (show v2 / 2 ^ 2 < 2 ^ 30 by omega),
      lor_disjoint 32 _ (show mhi % 2 ^ 2 * 2 ^ 30 + v2 / 2 ^ 2 < 2 ^ 32 by omega)]
    simp only [Prod.mk.injEq, and_true]
    omega
  · rw [show (3 : Nat) - 2 = 1 from rfl, show (29 : Nat) + 2 = 31 from rfl,
      lor_disjoint 31 s (show (2 ^ 20 + mhi) / 2 ^ 1 < 2 ^ 31 by omega),
      show (s * 2 ^ 31 + 2 ^ 20 + mhi) * 2 ^ 31 % 2 ^ 32 = mhi % 2 ^ 1 * 2 ^ 31 from
        by omega,
      lor_disjoint 31 _ (show v2 / 2 ^ 1 < 2 ^ 31 by omega),
      lor_disjoint 32 _ (show mhi % 2 ^ 1 * 2 ^ 31 + v2 / 2 ^ 1 < 2 ^ 32 by omega)]
    simp only [Prod.mk.injEq, and_true]
    omega

/-!  Branch-level evaluation of `VaxFFloatfromFloat32` on an IEEE single bit
pattern decomposed into sign `s`, biased IEEE exponent `e` and mantissa `m`. -/

/-- Normalized IEEE input that fits the F_Float exponent range: the exponent
is re-biased by `+2` and the word is swap-packed, with no error. -/
theorem encodeF_normal (s e m : Nat)
    (hs : s < 2) (he : 1 ≤ e) (he2 : e ≤ 253) (hm : m < 2 ^ 23) :
    VaxFFloatfromFloat32 (s * 2 ^ 31 + e * 2 ^ 23 + m) =
      (uint32FromVax (s * 2 ^ 31 + (e + 2) * 2 ^ 23 + m), false) := by
  have hz : (s * 2 ^ 31 + e * 2 ^ 23 + m) &&& 0x7FFFFFFF = e * 2 ^ 23 + m := by
    rw [land_0x7FFFFFFF]; omega
  have hmask : (s * 2 ^ 31 + e * 2 ^ 23 + m) &&& IeeeSExponentMask = e * 2 ^ 23 := by
    rw [land_IeeeSExponentMask]; omega
  have hIm : IeeeSExponentMask = 0x7F800000 := rfl
  have hshift : (e * 2 ^ 23) >>> VaxFMantissaSize = e := by
    show (e * 2 ^ 23) >>> 23 = e
    rw [Nat.shiftRight_eq_div_pow]; omega
  have hman : (s * 2 ^ 31 + e * 2 ^ 23 + m) &&& VaxFMantissaMask = m := by
    rw [land_VaxFMantissaMask]; omega
  have hsign : (s * 2 ^ 31 + e * 2 ^ 23 + m) &&& SignBit = s * 2 ^ 31 := by
    rw [land_SignBit]; omega
  have hadj : FExponentAdjustment = 2 := by decide
  have hbias : VaxFExponentBias = 128 := by decide
  simp only [VaxFFloatfromFloat32, hz, hmask, hshift, hman, hsign, hadj, hbias]
  rw [if_neg (show ¬e * 2 ^ 23 + m = 0 by omega),
    if_neg (show ¬e * 2 ^ 23 = IeeeSExponentMask by rw [hIm]; omega),
    if_neg (show ¬e = 0 by omega)]
  dsimp only
  rw [Nat.mod_eq_of_lt (show e + 2 < 2 ^ 32 by omega),
    if_neg (show ¬e + 2 ≤ 0 by omega),
    if_neg (show ¬e + 2 > 2 * 128 - 1 by omega)]
  rw [show VaxFMantissaSize = 23 from rfl]
  simp only [Nat.shiftLeft_eq]
  rw [lor_disjoint 31 s (show (e + 2) * 2 ^ 23 < 2 ^ 31 by omega),
    show s * 2 ^ 31 + (e + 2) * 2 ^ 23 = (s * 2 ^ 8 + (e + 2)) * 2 ^ 23 from by ring,
    lor_disjoint 23 _ hm,
    show (s * 2 ^ 8 + (e + 2)) * 2 ^ 23 + m = s * 2 ^ 31 + (e + 2) * 2 ^ 23 + m from
      by ring]

/-- IEEE input with an all-ones exponent field (infinity or NaN): the error
is signalled and the sign-preserving pattern with all-ones exponent and zero
mantissa is returned (swap-packed). -/
theorem encodeF_infnan (s m : Nat) (hs : s < 2) (hm : m < 2 ^ 23) :
    VaxFFloatfromFloat32 (s * 2 ^ 31 + 255 * 2 ^ 23 + m) =
      (uint32FromVax (s * 2 ^ 31 + VaxFExponentMask), true) := by
  have hz : (s * 2 ^ 31 + 255 * 2 ^ 23 + m) &&& 0x7FFFFFFF = 255 * 2 ^ 23 + m := by
    rw [land_0x7FFFFFFF]; omega
  have hmask : (s * 2 ^ 31 + 255 * 2 ^ 23 + m) &&& IeeeSExponentMask =
      255 * 2 ^ 23 := by
    rw [land_IeeeSExponentMask]; omega
  have hsign : (s * 2 ^ 31 + 255 * 2 ^ 23 + m) &&& SignBit = s * 2 ^ 31 := by
    rw [land_SignBit]; omega
  simp only [VaxFFloatfromFloat32, hz, hmask, hsign]
  rw [if_neg (show ¬255 * 2 ^ 23 + m = 0 by omega),
    if_pos (show 255 * 2 ^ 23 = IeeeSExponentMask from by decide),
    show VaxFExponentMask = 0x7F800000 from rfl,
    lor_disjoint 31 s (by norm_num)]

/-- Finite IEEE input whose re-biased exponent overflows the F_Float range
(biased IEEE exponent 254): the error is signalled and the sign-preserving
all-ones exponent and mantissa pattern is returned (swap-packed). -/
theorem encodeF_overflow (s m : Nat) (hs : s < 2) (hm : m < 2 ^ 23) :
    VaxFFloatfromFloat32 (s * 2 ^ 31 + 254 * 2 ^ 23 + m) =
      (uint32FromVax (s * 2 ^ 31 + 0x7FFFFFFF), true) := by
  have hz : (s * 2 ^ 31 + 254 * 2 ^ 23 + m) &&& 0x7FFFFFFF = 254 * 2 ^ 23 + m := by
    rw [land_0x7FFFFFFF]; omega
  have hmask : (s * 2 ^ 31 + 254 * 2 ^ 23 + m) &&& IeeeSExponentMask =
      254 * 2 ^ 23 := by
    rw [land_IeeeSExponentMask]; omega
  have hIm : IeeeSExponentMask = 0x7F800000 := rfl
  have hshift : (254 * 2 ^ 23 : Nat) >>> VaxFMantissaSize = 254 := by decide
  have hsign : (s * 2 ^ 31 + 254 * 2 ^ 23 + m) &&& SignBit = s * 2 ^ 31 := by
    rw [land_SignBit]; omega
  have hadj : FExponentAdjustment = 2 := by decide
  have hbias : VaxFExponentBias = 128 := by decide
  simp only [VaxFFloatfromFloat32, hz, hmask, hshift, hsign, hadj, hbias]
  rw [if_neg (show ¬254 * 2 ^ 23 + m = 0 by omega),
    if_neg (show ¬254 * 2 ^ 23 = IeeeSExponentMask by rw [hIm]; omega),
    if_neg (show ¬(254 : Nat) = 0 by omega)]
  dsimp only
  rw [Nat.mod_eq_of_lt (show 254 + 2 < 2 ^ 32 by norm_num),
    if_neg (show ¬254 + 2 ≤ 0 by omega),
    if_pos (show 254 + 2 > 2 * 128 - 1 by omega),
    lor_disjoint 31 s (by norm_num)]

/-!  Branch-level evaluation of `VaxGFloatfromFloat64` on an IEEE double bit
pattern decomposed into sign `s`, biased IEEE exponent `e` and the 52-bit
mantissa `M`. -/

/-- Normalized IEEE input that fits the G_Float exponent range: the exponent
is re-biased by `+2` and both words are swap-packed, with no error. -/
theorem encodeG_normal (s e M : Nat)
    (hs : s < 2) (he : 1 ≤ e) (he2 : e ≤ 2045) (hm : M < 2 ^ 52) :
    VaxGFloatfromFloat64 (s * 2 ^ 63 + e * 2 ^ 52 + M) =
      (uint32FromVax (M % 2 ^ 32) * 2 ^ 32 +
        uint32FromVax (s * 2 ^ 31 + (e + 2) * 2 ^ 20 + M / 2 ^ 32), false) := by
  have hhi : (s * 2 ^ 63 + e * 2 ^ 52 + M) >>> 32 =
      s * 2 ^ 31 + e * 2 ^ 20 + M / 2 ^ 32 := by
    rw [Nat.shiftRight_eq_div_pow]; omega
  have hlo : (s * 2 ^ 63 + e * 2 ^ 52 + M) &&& 0xFFFFFFFF = M % 2 ^ 32 := by
    rw [land_0xFFFFFFFF]; omega
  have hz : (s * 2 ^ 31 + e * 2 ^ 20 + M / 2 ^ 32) &&& 0x7FFFFFFF =
      e * 2 ^ 20 + M / 2 ^ 32 := by
    rw [land_0x7FFFFFFF]; omega
  have hmask : (s * 2 ^ 31 + e * 2 ^ 20 + M / 2 ^ 32) &&& IeeeTExponentMask =
      e * 2 ^ 20 := by
    rw [land_IeeeTExponentMask]; omega
  have hIm : IeeeTExponentMask = 0x7FF00000 := rfl
  have hshift : (e * 2 ^ 20) >>> VaxGMantissaSize = e := by
    show (e * 2 ^ 20) >>> 20 = e
    rw [Nat.shiftRight_eq_div_pow]; omega
  have hman : (s * 2 ^ 31 + e * 2 ^ 20 + M / 2 ^ 32) &&& VaxGMantissaMask =
      M / 2 ^ 32 := by
    rw [land_VaxGMantissaMask]; omega
  have hsign : (s * 2 ^ 31 + e * 2 ^ 20 + M / 2 ^ 32) &&& SignBit = s * 2 ^ 31 := by
    rw [land_SignBit]; omega
  have hadj : GExponentAdjustment = 2 := by decide
  have hbias : VaxGExponentBias = 1024 := by decide
  simp only [VaxGFloatfromFloat64, hhi, hlo, hz, hmask, hshift, hman, hsign,
    hadj, hbias]
  rw [if_neg (lor_ne_zero_left _ (show ¬e * 2 ^ 20 + M / 2 ^ 32 = 0 by omega)),
    if_neg (show ¬e * 2 ^ 20 = IeeeTExponentMask by rw [hIm]; omega),
    if_neg (show ¬e = 0 by omega)]
  dsimp only
  rw [Nat.mod_eq_of_lt (show e + 2 < 2 ^ 32 by omega),
    if_neg (show ¬e + 2 ≤ 0 by omega),
    if_neg (show ¬e + 2 > 2 * 1024 - 1 by omega)]
  dsimp only
  rw [show VaxGMantissaSize = 20 from rfl]
  simp only [Nat.shiftLeft_eq]
  rw [lor_disjoint 31 s (show (e + 2) * 2 ^ 20 < 2 ^ 31 by omega),
    show s * 2 ^ 31 + (e + 2) * 2 ^ 20 = (s * 2 ^ 11 + (e + 2)) * 2 ^ 20 from by ring,
    lor_disjoint 20 _ (show M / 2 ^ 32 < 2 ^ 20 by omega),
    show (s * 2 ^ 11 + (e + 2)) * 2 ^ 20 + M / 2 ^ 32 =
      s * 2 ^ 31 + (e + 2) * 2 ^ 20 + M / 2 ^ 32 from by ring,
    lor_disjoint 32 _ (uint32FromVax_lt _ (by omega))]

/-- IEEE double input with an all-ones exponent field (infinity or NaN): the
error is signalled and the sign-preserving pattern with all-ones exponent and
zero mantissa is returned (swap-packed, low mantissa word zero). -/
theorem encodeG_infnan (s M : Nat) (hs : s < 2) (hm : M < 2 ^ 52) :
    VaxGFloatfromFloat64 (s * 2 ^ 63 + 2047 * 2 ^ 52 + M) =
      (uint32FromVax (s * 2 ^ 31 + VaxGExponentMask), true) := by
  have hhi : (s * 2 ^ 63 + 2047 * 2 ^ 52 + M) >>> 32 =
      s * 2 ^ 31 + 2047 * 2 ^ 20 + M / 2 ^ 32 := by
    rw [Nat.shiftRight_eq_div_pow]; omega
  have hlo : (s * 2 ^ 63 + 2047 * 2 ^ 52 + M) &&& 0xFFFFFFFF = M % 2 ^ 32 := by
    rw [land_0xFFFFFFFF]; omega
  have hz : (s * 2 ^ 31 + 2047 * 2 ^ 20 + M / 2 ^ 32) &&& 0x7FFFFFFF =
      2047 * 2 ^ 20 + M / 2 ^ 32 := by
    rw [land_0x7FFFFFFF]; omega
  have hmask : (s * 2 ^ 31 + 2047 * 2 ^ 20 + M / 2 ^ 32) &&& IeeeTExponentMask =
      2047 * 2 ^ 20 := by
    rw [land_IeeeTExponentMask]; omega
  have hsign : (s * 2 ^ 31 + 2047 * 2 ^ 20 + M / 2 ^ 32) &&& SignBit =
      s * 2 ^ 31 := by
    rw [land_SignBit]; omega
  simp only [VaxGFloatfromFloat64, hhi, hlo, hz, hmask, hsign]
  rw [if_neg (lor_ne_zero_left _ (show ¬2047 * 2 ^ 20 + M / 2 ^ 32 = 0 by omega)),
    if_pos (show 2047 * 2 ^ 20 = IeeeTExponentMask from by decide)]
  dsimp only
  rw [show VaxGExponentMask = 0x7FF00000 from rfl,
    lor_disjoint 31 s (by norm_num)]
  rw [show uint32FromVax 0 = 0 from rfl]
  rw [Nat.shiftLeft_eq, Nat.zero_mul, Nat.zero_or]

/-- Finite IEEE double input whose re-biased exponent overflows the G_Float
range (biased IEEE exponent 2046): the error is signalled and the
sign-preserving all-ones exponent and mantissa pattern is returned
(swap-packed; the low mantissa word is all-ones and swap-invariant). -/
theorem encodeG_overflow (s M : Nat) (hs : s < 2) (hm : M < 2 ^ 52) :
    VaxGFloatfromFloat64 (s * 2 ^ 63 + 2046 * 2 ^ 52 + M) =
      (0xFFFFFFFF * 2 ^ 32 + uint32FromVax (s * 2 ^ 31 + 0x7FFFFFFF), true) := by
  have hhi : (s * 2 ^ 63 + 2046 * 2 ^ 52 + M) >>> 32 =
      s * 2 ^ 31 + 2046 * 2 ^ 20 + M / 2 ^ 32 := by
    rw [Nat.shiftRight_eq_div_pow]; omega
  have hlo : (s * 2 ^ 63 + 2046 * 2 ^ 52 + M) &&& 0xFFFFFFFF = M % 2 ^ 32 := by
    rw [land_0xFFFFFFFF]; omega
  have hz : (s * 2 ^ 31 + 2046 * 2 ^ 20 + M / 2 ^ 32) &&& 0x7FFFFFFF =
      2046 * 2 ^ 20 + M / 2 ^ 32 := by
    rw [land_0x7FFFFFFF]; omega
  have hmask : (s * 2 ^ 31 + 2046 * 2 ^ 20 + M / 2 ^ 32) &&& IeeeTExponentMask =
      2046 * 2 ^ 20 := by
    rw [land_IeeeTExponentMask]; omega
  have hIm : IeeeTExponentMask = 0x7FF00000 := rfl
  have hshift : (2046 * 2 ^ 20 : Nat) >>> VaxGMantissaSize = 2046 := by decide
  have hsign : (s * 2 ^ 31 + 2046 * 2 ^ 20 + M / 2 ^ 32) &&& SignBit =
      s * 2 ^ 31 := by
    rw [land_SignBit]; omega
  have hadj : GExponentAdjustment = 2 := by decide
  have hbias : VaxGExponentBias = 1024 := by decide
  simp only [VaxGFloatfromFloat64, hhi, hlo, hz, hmask, hshift, hsign, hadj, hbias]
  rw [if_neg (lor_ne_zero_left _ (show ¬2046 * 2 ^ 20 + M / 2 ^ 32 = 0 by omega)),
    if_neg (show ¬2046 * 2 ^ 20 = IeeeTExponentMask by rw [hIm]; omega),
    if_neg (show ¬(2046 : Nat) = 0 by omega)]
  dsimp only
  rw [Nat.mod_eq_of_lt (show 2046 + 2 < 2 ^ 32 by norm_num),
    if_neg (show ¬2046 + 2 ≤ 0 by omega),
    if_pos (show 2046 + 2 > 2 * 1024 - 1 by omega)]
  dsimp only
  rw [lor_disjoint 31 s (by norm_num),
    show uint32FromVax 0xFFFFFFFF = 0xFFFFFFFF from rfl,
    Nat.shiftLeft_eq,
    lor_disjoint 32 _ (uint32FromVax_lt _ (by omega))]

/-!  The claims. -/

/-- C9: `uint32FromVax` exchanges the two 16-bit halves of its 32-bit input
(the result's high half is the input's low half and vice versa), is total
with no error conditions (its result is again a 32-bit value), and is an
involution: applying it twice returns the input. -/
theorem uint32FromVax_swap_involution (v : Nat) (hv : v < 2 ^ 32) :
    uint32FromVax v / 2 ^ 16 = v % 2 ^ 16 ∧
    uint32FromVax v % 2 ^ 16 = v / 2 ^ 16 ∧
    uint32FromVax v < 2 ^ 32 ∧
    uint32FromVax (uint32FromVax v) = v := by
  have h := uint32FromVax_eq v hv
  exact ⟨by omega, by omega, uint32FromVax_lt v hv, uint32FromVax_uint32FromVax v hv⟩

/-- Witness for C9 at the input `0x12345678`. -/
theorem uint32FromVax_swap_involution_witness :
    uint32FromVax 0x12345678 / 2 ^ 16 = 0x12345678 % 2 ^ 16 ∧
    uint32FromVax 0x12345678 % 2 ^ 16 = 0x12345678 / 2 ^ 16 ∧
    uint32FromVax 0x12345678 < 2 ^ 32 ∧
    uint32FromVax (uint32FromVax 0x12345678) = 0x12345678 :=
  uint32FromVax_swap_involution 0x12345678 (by norm_num)

/-- C3: `Float32fromVaxFFloat` and `Float64fromVaxGFloat` return a non-nil
error if and only if the unpacked input has exponent field 0 and sign bit 1
(VAX reserved operand), in which case the returned value is exactly zero;
every other input decodes with a nil error. -/
theorem decode_error_iff_reserved_operand :
    (∀ b0 b1 b2 b3 : Nat,
      ((Float32fromVaxFFloat b0 b1 b2 b3).2 = true ↔
        uint32FromVaxbits b0 b1 b2 b3 &&& VaxFExponentMask = 0 ∧
        uint32FromVaxbits b0 b1 b2 b3 &&& SignBit = SignBit) ∧
      ((Float32fromVaxFFloat b0 b1 b2 b3).2 = true →
        (Float32fromVaxFFloat b0 b1 b2 b3).1 = 0)) ∧
    (∀ b0 b1 b2 b3 b4 b5 b6 b7 : Nat,
      ((Float64fromVaxGFloat b0 b1 b2 b3 b4 b5 b6 b7).2 = true ↔
        uint32FromVaxbits b4 b5 b6 b7 &&& VaxGExponentMask = 0 ∧
        uint32FromVaxbits b4 b5 b6 b7 &&& SignBit = SignBit) ∧
      ((Float64fromVaxGFloat b0 b1 b2 b3 b4 b5 b6 b7).2 = true →
        (Float64fromVaxGFloat b0 b1 b2 b3 b4 b5 b6 b7).1 = 0)) := by
  constructor
  · intro b0 b1 b2 b3
    simp only [Float32fromVaxFFloat]
    split_ifs <;> simp_all
  · intro b0 b1 b2 b3 b4 b5 b6 b7
    simp only [Float64fromVaxGFloat]
    split_ifs <;> simp_all

/-- Witness for C3 on the reserved operand with bytes `00 00 80 00`
(unpacked value `0x80000000`: sign 1, exponent 0). -/
theorem decode_error_iff_reserved_operand_witness :
    (Float32fromVaxFFloat 0 0 0x80 0).2 = true ∧
    (Float32fromVaxFFloat 0 0 0x80 0).1 = 0 :=
  ⟨(decode_error_iff_reserved_operand.1 0 0 0x80 0).1.mpr (by decide),
   (decode_error_iff_reserved_operand.1 0 0 0x80 0).2
     ((decode_error_iff_reserved_operand.1 0 0 0x80 0).1.mpr (by decide))⟩

/-- C6: encoding IEEE `+0` and `-0` (both widths) produces the all-zero legacy
pattern with no error, and decoding any legacy pattern with exponent field 0
and sign bit 0 — true zero or dirty zero — produces IEEE `+0` (bit pattern 0)
with no error. -/
theorem zero_canonicalization :
    VaxFFloatfromFloat32 0x00000000 = (0, false) ∧
    VaxFFloatfromFloat32 0x80000000 = (0, false) ∧
    VaxGFloatfromFloat64 0x0000000000000000 = (0, false) ∧
    VaxGFloatfromFloat64 0x8000000000000000 = (0, false) ∧
    (∀ b0 b1 b2 b3 : Nat,
      uint32FromVaxbits b0 b1 b2 b3 &&& VaxFExponentMask = 0 →
      uint32FromVaxbits b0 b1 b2 b3 &&& SignBit = 0 →
      Float32fromVaxFFloat b0 b1 b2 b3 = (0, false)) ∧
    (∀ b0 b1 b2 b3 b4 b5 b6 b7 : Nat,
      uint32FromVaxbits b4 b5 b6 b7 &&& VaxGExponentMask = 0 →
      uint32FromVaxbits b4 b5 b6 b7 &&& SignBit = 0 →
      Float64fromVaxGFloat b0 b1 b2 b3 b4 b5 b6 b7 = (0, false)) := by
  refine ⟨by decide, by decide, by decide, by decide, ?_, ?_⟩
  · intro b0 b1 b2 b3 h1 h2
    simp only [Float32fromVaxFFloat, h1]
    rw [if_pos trivial, if_neg (by rw [h2]; decide)]
  · intro b0 b1 b2 b3 b4 b5 b6 b7 h1 h2
    simp only [Float64fromVaxGFloat, h1]
    rw [if_pos trivial, if_neg (by rw [h2]; decide)]

/-- Witness for C6 on the dirty-zero bytes `FF FF 00 00` (unpacked value
`0x0000FFFF`: sign 0, exponent 0, nonzero mantissa). -/
theorem zero_canonicalization_witness :
    Float32fromVaxFFloat 0xFF 0xFF 0 0 = (0, false) :=
  zero_canonicalization.2.2.2.2.1 0xFF 0xFF 0 0 (by decide) (by decide)

/-- C2 is refuted by the code: an IEEE subnormal whose adjusted legacy
exponent `e' = e + 2` is strictly negative should silently underflow to the
legacy zero with a nil error (so the package documentation and the claim
state), but in both encoders `e` is a Go `uint32`, so the `e -= 1`
decrements of the re-normalization loop wrap around, the later `e <= 0`
underflow test only catches `e = 0`, and the wrapped exponent instead
trips the overflow branch: the encoders return the overflow error together
with the saturation pattern.  The smallest positive subnormals (bit
pattern 1) exhibit this; the boundary input with `e' = 0` (high mantissa
bit 2^20 set, 23-bit single mantissa) still underflows silently, showing
only the strictly negative range is affected. -/
theorem underflow_error_on_small_subnormal :
    VaxFFloatfromFloat32 0x00000001 = (0xFFFF7FFF, true) ∧
    VaxGFloatfromFloat64 0x0000000000000001 = (0xFFFFFFFFFFFF7FFF, true) ∧
    VaxFFloatfromFloat32 0x00100000 = (0, false) := by
  refine ⟨by decide, by decide, by decide⟩

/-- C4: for every IEEE single (resp. double) input whose exponent field is
all-ones — infinity of either sign or any NaN — the encoder signals the
no-legacy-equivalent error and returns the saturation pattern whose unpacked
(word-swap undone) form has the input's sign bit, an all-ones exponent field
and a zero mantissa; for the double width the low mantissa word is zero. -/
theorem encode_infnan_saturates :
    (∀ s m : Nat, s < 2 → m < 2 ^ 23 →
      (VaxFFloatfromFloat32 (s * 2 ^ 31 + 255 * 2 ^ 23 + m)).2 = true ∧
      uint32FromVax (VaxFFloatfromFloat32 (s * 2 ^ 31 + 255 * 2 ^ 23 + m)).1 =
        s * 2 ^ 31 + VaxFExponentMask) ∧
    (∀ s M : Nat, s < 2 → M < 2 ^ 52 →
      (VaxGFloatfromFloat64 (s * 2 ^ 63 + 2047 * 2 ^ 52 + M)).2 = true ∧
      uint32FromVax ((VaxGFloatfromFloat64 (s * 2 ^ 63 + 2047 * 2 ^ 52 + M)).1 % 2 ^ 32) =
        s * 2 ^ 31 + VaxGExponentMask ∧
      uint32FromVax ((VaxGFloatfromFloat64 (s * 2 ^ 63 + 2047 * 2 ^ 52 + M)).1 / 2 ^ 32) =
        0) := by
  constructor
  · intro s m hs hm
    rw [encodeF_infnan s m hs hm]
    have hlt : s * 2 ^ 31 + VaxFExponentMask < 2 ^ 32 := by
      rw [show VaxFExponentMask = 0x7F800000 from rfl]; omega
    exact ⟨rfl, uint32FromVax_uint32FromVax _ hlt⟩
  · intro s M hs hm
    rw [encodeG_infnan s M hs hm]
    have hlt : s * 2 ^ 31 + VaxGExponentMask < 2 ^ 32 := by
      rw [show VaxGExponentMask = 0x7FF00000 from rfl]; omega
    have hW := uint32FromVax_lt _ hlt
    refine ⟨rfl, ?_, ?_⟩
    · rw [Nat.mod_eq_of_lt hW, uint32FromVax_uint32FromVax _ hlt]
    · rw [Nat.div_eq_of_lt hW]
      decide

/-- Witness for C4 at negative infinity in both widths (sign 1, exponent
all-ones, mantissa 0). -/
theorem encode_infnan_saturates_witness :
    ((VaxFFloatfromFloat32 (1 * 2 ^ 31 + 255 * 2 ^ 23 + 0)).2 = true ∧
      uint32FromVax (VaxFFloatfromFloat32 (1 * 2 ^ 31 + 255 * 2 ^ 23 + 0)).1 =
        1 * 2 ^ 31 + VaxFExponentMask) ∧
    ((VaxGFloatfromFloat64 (1 * 2 ^ 63 + 2047 * 2 ^ 52 + 0)).2 = true ∧
      uint32FromVax ((VaxGFloatfromFloat64 (1 * 2 ^ 63 + 2047 * 2 ^ 52 + 0)).1 % 2 ^ 32) =
        1 * 2 ^ 31 + VaxGExponentMask ∧
      uint32FromVax ((VaxGFloatfromFloat64 (1 * 2 ^ 63 + 2047 * 2 ^ 52 + 0)).1 / 2 ^ 32) =
        0) :=
  ⟨encode_infnan_saturates.1 1 0 (by norm_num) (by norm_num),
   encode_infnan_saturates.2 1 0 (by norm_num) (by norm_num)⟩

/-- C5: for every finite IEEE single (resp. double) input whose adjusted
legacy exponent `e' = e + 2` exceeds `2 * legacyBias - 1` — among finite
inputs these are exactly the ones with IEEE exponent field 254 (resp. 2046),
since subnormal inputs re-normalize to `e' ≤ 2` — the encoder signals the
overflow error and returns the pattern whose unpacked form keeps the input's
sign bit and has all-ones exponent and mantissa fields. -/
theorem encode_overflow_saturates :
    (∀ s m : Nat, s < 2 → m < 2 ^ 23 →
      (VaxFFloatfromFloat32 (s * 2 ^ 31 + 254 * 2 ^ 23 + m)).2 = true ∧
      uint32FromVax (VaxFFloatfromFloat32 (s * 2 ^ 31 + 254 * 2 ^ 23 + m)).1 =
        s * 2 ^ 31 + VaxFExponentMask + VaxFMantissaMask) ∧
    (∀ s M : Nat, s < 2 → M < 2 ^ 52 →
      (VaxGFloatfromFloat64 (s * 2 ^ 63 + 2046 * 2 ^ 52 + M)).2 = true ∧
      uint32FromVax ((VaxGFloatfromFloat64 (s * 2 ^ 63 + 2046 * 2 ^ 52 + M)).1 % 2 ^ 32) =
        s * 2 ^ 31 + VaxGExponentMask + VaxGMantissaMask ∧
      uint32FromVax ((VaxGFloatfromFloat64 (s * 2 ^ 63 + 2046 * 2 ^ 52 + M)).1 / 2 ^ 32) =
        0xFFFFFFFF) := by
  constructor
  · intro s m hs hm
    rw [encodeF_overflow s m hs hm]
    have hlt : s * 2 ^ 31 + 0x7FFFFFFF < 2 ^ 32 := by omega
    refine ⟨rfl, ?_⟩
    rw [uint32FromVax_uint32FromVax _ hlt]
    have hsum : VaxFExponentMask + VaxFMantissaMask = 0x7FFFFFFF := by decide
    omega
  · intro s M hs hm
    rw [encodeG_overflow s M hs hm]
    have hlt : s * 2 ^ 31 + 0x7FFFFFFF < 2 ^ 32 := by omega
    have hW := uint32FromVax_lt _ hlt
    refine ⟨rfl, ?_, ?_⟩
    · rw [show (0xFFFFFFFF * 2 ^ 32 + uint32FromVax (s * 2 ^ 31 + 0x7FFFFFFF)) % 2 ^ 32 =
        uint32FromVax (s * 2 ^ 31 + 0x7FFFFFFF) from by omega,
        uint32FromVax_uint32FromVax _ hlt]
      have hsum : VaxGExponentMask + VaxGMantissaMask = 0x7FFFFFFF := by decide
      omega
    · rw [show (0xFFFFFFFF * 2 ^ 32 + uint32FromVax (s * 2 ^ 31 + 0x7FFFFFFF)) / 2 ^ 32 =
        0xFFFFFFFF from by omega]
      rfl

/-- Witness for C5 at sign 1 with all-ones stored mantissa in both widths
(the largest-magnitude negative finite values of exponent field 254 resp.
2046). -/
theorem encode_overflow_saturates_witness :
    ((VaxFFloatfromFloat32 (1 * 2 ^ 31 + 254 * 2 ^ 23 + (2 ^ 23 - 1))).2 = true ∧
      uint32FromVax (VaxFFloatfromFloat32 (1 * 2 ^ 31 + 254 * 2 ^ 23 + (2 ^ 23 - 1))).1 =
        1 * 2 ^ 31 + VaxFExponentMask + VaxFMantissaMask) ∧
    ((VaxGFloatfromFloat64 (1 * 2 ^ 63 + 2046 * 2 ^ 52 + (2 ^ 52 - 1))).2 = true ∧
      uint32FromVax
          ((VaxGFloatfromFloat64 (1 * 2 ^ 63 + 2046 * 2 ^ 52 + (2 ^ 52 - 1))).1 % 2 ^ 32) =
        1 * 2 ^ 31 + VaxGExponentMask + VaxGMantissaMask ∧
      uint32FromVax
          ((VaxGFloatfromFloat64 (1 * 2 ^ 63 + 2046 * 2 ^ 52 + (2 ^ 52 - 1))).1 / 2 ^ 32) =
        0xFFFFFFFF) :=
  ⟨encode_overflow_saturates.1 1 (2 ^ 23 - 1) (by norm_num) (by norm_num),
   encode_overflow_saturates.2 1 (2 ^ 52 - 1) (by norm_num) (by norm_num)⟩

/-- C1: for every IEEE single value in the legacy format's representable
normalized range — a normalized IEEE single whose magnitude fits a
normalized F_Float, i.e. sign `s`, exponent field `1 ≤ e ≤ 253` (field 254
overflows the re-biased range and 255 is infinite), any mantissa `m` —
encoding, serializing the resulting `VaxFFloat` to its 4 bytes big-endian,
and decoding returns exactly the original bit pattern with no error at
either step; likewise for doubles over 8 bytes with `1 ≤ e ≤ 2045`. -/
theorem roundtrip_normal_range :
    (∀ s e m : Nat, s < 2 → 1 ≤ e → e ≤ 253 → m < 2 ^ 23 →
      (VaxFFloatfromFloat32 (s * 2 ^ 31 + e * 2 ^ 23 + m)).2 = false ∧
      Float32fromVaxFFloat
        (putUint32BigEndian (VaxFFloatfromFloat32 (s * 2 ^ 31 + e * 2 ^ 23 + m)).1).1
        (putUint32BigEndian (VaxFFloatfromFloat32 (s * 2 ^ 31 + e * 2 ^ 23 + m)).1).2.1
        (putUint32BigEndian (VaxFFloatfromFloat32 (s * 2 ^ 31 + e * 2 ^ 23 + m)).1).2.2.1
        (putUint32BigEndian (VaxFFloatfromFloat32 (s * 2 ^ 31 + e * 2 ^ 23 + m)).1).2.2.2 =
        (s * 2 ^ 31 + e * 2 ^ 23 + m, false)) ∧
    (∀ s e M : Nat, s < 2 → 1 ≤ e → e ≤ 2045 → M < 2 ^ 52 →
      (VaxGFloatfromFloat64 (s * 2 ^ 63 + e * 2 ^ 52 + M)).2 = false ∧
      Float64fromVaxGFloat
        (putUint64BigEndian (VaxGFloatfromFloat64 (s * 2 ^ 63 + e * 2 ^ 52 + M)).1).1
        (putUint64BigEndian (VaxGFloatfromFloat64 (s * 2 ^ 63 + e * 2 ^ 52 + M)).1).2.1
        (putUint64BigEndian (VaxGFloatfromFloat64 (s * 2 ^ 63 + e * 2 ^ 52 + M)).1).2.2.1
        (putUint64BigEndian (VaxGFloatfromFloat64 (s * 2 ^ 63 + e * 2 ^ 52 + M)).1).2.2.2.1
        (putUint64BigEndian (VaxGFloatfromFloat64 (s * 2 ^ 63 + e * 2 ^ 52 + M)).1).2.2.2.2.1
        (putUint64BigEndian (VaxGFloatfromFloat64 (s * 2 ^ 63 + e * 2 ^ 52 + M)).1).2.2.2.2.2.1
        (putUint64BigEndian (VaxGFloatfromFloat64 (s * 2 ^ 63 + e * 2 ^ 52 + M)).1).2.2.2.2.2.2.1
        (putUint64BigEndian (VaxGFloatfromFloat64 (s * 2 ^ 63 + e * 2 ^ 52 + M)).1).2.2.2.2.2.2.2 =
        (s * 2 ^ 63 + e * 2 ^ 52 + M, false)) := by
  constructor
  · intro s e m hs he he2 hm
    rw [encodeF_normal s e m hs he he2 hm]
    have hX : s * 2 ^ 31 + (e + 2) * 2 ^ 23 + m < 2 ^ 32 := by omega
    refine ⟨rfl, ?_⟩
    have hb := uint32FromVaxbits_putUint32BigEndian
      (uint32FromVax (s * 2 ^ 31 + (e + 2) * 2 ^ 23 + m)) (uint32FromVax_lt _ hX)
    rw [uint32FromVax_uint32FromVax _ hX] at hb
    rw [decodeF_normal _ _ _ _ s (e + 2) m hb hs (by omega) (by omega) hm]
    simp only [Prod.mk.injEq]
    exact ⟨by omega, trivial⟩
  · intro s e M hs he he2 hm
    rw [encodeG_normal s e M hs he he2 hm]
    have hX1 : s * 2 ^ 31 + (e + 2) * 2 ^ 20 + M / 2 ^ 32 < 2 ^ 32 := by omega
    have hlo := uint32FromVax_lt _ (show M % 2 ^ 32 < 2 ^ 32 by omega)
    have hhi := uint32FromVax_lt _ hX1
    have hR : uint32FromVax (M % 2 ^ 32) * 2 ^ 32 +
        uint32FromVax (s * 2 ^ 31 + (e + 2) * 2 ^ 20 + M / 2 ^ 32) < 2 ^ 64 := by
      omega
    refine ⟨rfl, ?_⟩
    have hbhi := uint32FromVaxbits_putUint64BigEndian_hi _ hR
    have hblo := uint32FromVaxbits_putUint64BigEndian_lo _ hR
    rw [show (uint32FromVax (M % 2 ^ 32) * 2 ^ 32 +
        uint32FromVax (s * 2 ^ 31 + (e + 2) * 2 ^ 20 + M / 2 ^ 32)) / 2 ^ 32 =
        uint32FromVax (M % 2 ^ 32) from by omega,
      uint32FromVax_uint32FromVax _ (show M % 2 ^ 32 < 2 ^ 32 by omega)] at hbhi
    rw [show (uint32FromVax (M % 2 ^ 32) * 2 ^ 32 +
        uint32FromVax (s * 2 ^ 31 + (e + 2) * 2 ^ 20 + M / 2 ^ 32)) % 2 ^ 32 =
        uint32FromVax (s * 2 ^ 31 + (e + 2) * 2 ^ 20 + M / 2 ^ 32) from by omega,
      uint32FromVax_uint32FromVax _ hX1] at hblo
    rw [decodeG_normal _ _ _ _ _ _ _ _ s (e + 2) (M / 2 ^ 32) (M % 2 ^ 32)
      hbhi hblo hs (by omega) (by omega) (by omega) (by omega)]
    simp only [Prod.mk.injEq]
    exact ⟨by omega, trivial⟩

/-- Witness for C1 at the test vector `1.0` (`0x3F800000`, sign 0, exponent
field 127, mantissa 0) and its double counterpart (`0x3FF0000000000000`). -/
theorem roundtrip_normal_range_witness :
    ((VaxFFloatfromFloat32 (0 * 2 ^ 31 + 127 * 2 ^ 23 + 0)).2 = false ∧
      Float32fromVaxFFloat
        (putUint32BigEndian (VaxFFloatfromFloat32 (0 * 2 ^ 31 + 127 * 2 ^ 23 + 0)).1).1
        (putUint32BigEndian (VaxFFloatfromFloat32 (0 * 2 ^ 31 + 127 * 2 ^ 23 + 0)).1).2.1
        (putUint32BigEndian (VaxFFloatfromFloat32 (0 * 2 ^ 31 + 127 * 2 ^ 23 + 0)).1).2.2.1
        (putUint32BigEndian (VaxFFloatfromFloat32 (0 * 2 ^ 31 + 127 * 2 ^ 23 + 0)).1).2.2.2 =
        (0 * 2 ^ 31 + 127 * 2 ^ 23 + 0, false)) ∧
    ((VaxGFloatfromFloat64 (0 * 2 ^ 63 + 1023 * 2 ^ 52 + 0)).2 = false ∧
      Float64fromVaxGFloat
        (putUint64BigEndian (VaxGFloatfromFloat64 (0 * 2 ^ 63 + 1023 * 2 ^ 52 + 0)).1).1
        (putUint64BigEndian (VaxGFloatfromFloat64 (0 * 2 ^ 63 + 1023 * 2 ^ 52 + 0)).1).2.1
        (putUint64BigEndian (VaxGFloatfromFloat64 (0 * 2 ^ 63 + 1023 * 2 ^ 52 + 0)).1).2.2.1
        (putUint64BigEndian (VaxGFloatfromFloat64 (0 * 2 ^ 63 + 1023 * 2 ^ 52 + 0)).1).2.2.2.1
        (putUint64BigEndian (VaxGFloatfromFloat64 (0 * 2 ^ 63 + 1023 * 2 ^ 52 + 0)).1).2.2.2.2.1
        (putUint64BigEndian (VaxGFloatfromFloat64 (0 * 2 ^ 63 + 1023 * 2 ^ 52 + 0)).1).2.2.2.2.2.1
        (putUint64BigEndian (VaxGFloatfromFloat64 (0 * 2 ^ 63 + 1023 * 2 ^ 52 + 0)).1).2.2.2.2.2.2.1
        (putUint64BigEndian (VaxGFloatfromFloat64 (0 * 2 ^ 63 + 1023 * 2 ^ 52 + 0)).1).2.2.2.2.2.2.2 =
        (0 * 2 ^ 63 + 1023 * 2 ^ 52 + 0, false)) :=
  ⟨roundtrip_normal_range.1 0 127 0 (by norm_num) (by norm_num) (by norm_num) (by norm_num),
   roundtrip_normal_range.2 0 1023 0 (by norm_num) (by norm_num) (by norm_num) (by norm_num)⟩

/-- C7: for every legacy single input with nonzero exponent field whose
re-biased exponent `e' = e - 2` is positive (together: exponent field
`e ≥ 3`), the decoded IEEE pattern keeps the unpacked input's sign bit and
its 23-bit mantissa field, and only the exponent field changes, to `e'`;
likewise for doubles, whose 52-bit mantissa spans the high word's low 20
bits and the entire low word. -/
theorem decode_normal_frame :
    (∀ b0 b1 b2 b3 : Nat, b0 < 256 → b1 < 256 → b2 < 256 → b3 < 256 →
      3 ≤ uint32FromVaxbits b0 b1 b2 b3 / 2 ^ 23 % 2 ^ 8 →
      (Float32fromVaxFFloat b0 b1 b2 b3).2 = false ∧
      (Float32fromVaxFFloat b0 b1 b2 b3).1 / 2 ^ 31 =
        uint32FromVaxbits b0 b1 b2 b3 / 2 ^ 31 ∧
      (Float32fromVaxFFloat b0 b1 b2 b3).1 % 2 ^ 23 =
        uint32FromVaxbits b0 b1 b2 b3 % 2 ^ 23 ∧
      (Float32fromVaxFFloat b0 b1 b2 b3).1 / 2 ^ 23 % 2 ^ 8 =
        uint32FromVaxbits b0 b1 b2 b3 / 2 ^ 23 % 2 ^ 8 - 2) ∧
    (∀ b0 b1 b2 b3 b4 b5 b6 b7 : Nat,
      b0 < 256 → b1 < 256 → b2 < 256 → b3 < 256 →
      b4 < 256 → b5 < 256 → b6 < 256 → b7 < 256 →
      3 ≤ uint32FromVaxbits b4 b5 b6 b7 / 2 ^ 20 % 2 ^ 11 →
      (Float64fromVaxGFloat b0 b1 b2 b3 b4 b5 b6 b7).2 = false ∧
      (Float64fromVaxGFloat b0 b1 b2 b3 b4 b5 b6 b7).1 / 2 ^ 63 =
        uint32FromVaxbits b4 b5 b6 b7 / 2 ^ 31 ∧
      (Float64fromVaxGFloat b0 b1 b2 b3 b4 b5 b6 b7).1 % 2 ^ 52 =
        uint32FromVaxbits b4 b5 b6 b7 % 2 ^ 20 * 2 ^ 32 +
          uint32FromVaxbits b0 b1 b2 b3 ∧
      (Float64fromVaxGFloat b0 b1 b2 b3 b4 b5 b6 b7).1 / 2 ^ 52 % 2 ^ 11 =
        uint32FromVaxbits b4 b5 b6 b7 / 2 ^ 20 % 2 ^ 11 - 2) := by
  constructor
  · intro b0 b1 b2 b3 h0 h1 h2 h3 he
    have hvlt : uint32FromVaxbits b0 b1 b2 b3 < 2 ^ 32 := by
      rw [uint32FromVaxbits_eq _ _ _ _ h0 h1 h2 h3]; omega
    have hdecomp : uint32FromVaxbits b0 b1 b2 b3 =
        uint32FromVaxbits b0 b1 b2 b3 / 2 ^ 31 * 2 ^ 31 +
        uint32FromVaxbits b0 b1 b2 b3 / 2 ^ 23 % 2 ^ 8 * 2 ^ 23 +
        uint32FromVaxbits b0 b1 b2 b3 % 2 ^ 23 := by omega
    rw [decodeF_normal b0 b1 b2 b3 _ _ _ hdecomp (by omega) he (by omega) (by omega)]
    exact ⟨rfl, by omega, by omega, by omega⟩
  · intro b0 b1 b2 b3 b4 b5 b6 b7 h0 h1 h2 h3 h4 h5 h6 h7 he
    have hv1lt : uint32FromVaxbits b4 b5 b6 b7 < 2 ^ 32 := by
      rw [uint32FromVaxbits_eq _ _ _ _ h4 h5 h6 h7]; omega
    have hv2lt : uint32FromVaxbits b0 b1 b2 b3 < 2 ^ 32 := by
      rw [uint32FromVaxbits_eq _ _ _ _ h0 h1 h2 h3]; omega
    have hdecomp : uint32FromVaxbits b4 b5 b6 b7 =
        uint32FromVaxbits b4 b5 b6 b7 / 2 ^ 31 * 2 ^ 31 +
        uint32FromVaxbits b4 b5 b6 b7 / 2 ^ 20 % 2 ^ 11 * 2 ^ 20 +
        uint32FromVaxbits b4 b5 b6 b7 % 2 ^ 20 := by omega
    rw [decodeG_normal b0 b1 b2 b3 b4 b5 b6 b7 _ _ _ _ rfl hdecomp
      (by omega) he (by omega) (by omega) hv2lt]
    exact ⟨rfl, by omega, by omega, by omega⟩

/-- Witness for C7 on the single bytes `00 00 40 80` (unpacked `0x40800000`,
exponent field 129, the stored form of 1.0) and the double bytes
`00 00 00 00 00 00 40 10` (unpacked high word `0x40100000`). -/
theorem decode_normal_frame_witness :
    ((Float32fromVaxFFloat 0 0 0x40 0x80).2 = false ∧
      (Float32fromVaxFFloat 0 0 0x40 0x80).1 / 2 ^ 31 =
        uint32FromVaxbits 0 0 0x40 0x80 / 2 ^ 31 ∧
      (Float32fromVaxFFloat 0 0 0x40 0x80).1 % 2 ^ 23 =
        uint32FromVaxbits 0 0 0x40 0x80 % 2 ^ 23 ∧
      (Float32fromVaxFFloat 0 0 0x40 0x80).1 / 2 ^ 23 % 2 ^ 8 =
        uint32FromVaxbits 0 0 0x40 0x80 / 2 ^ 23 % 2 ^ 8 - 2) ∧
    ((Float64fromVaxGFloat 0 0 0 0 0 0 0x40 0x10).2 = false ∧
      (Float64fromVaxGFloat 0 0 0 0 0 0 0x40 0x10).1 / 2 ^ 63 =
        uint32FromVaxbits 0 0 0x40 0x10 / 2 ^ 31 ∧
      (Float64fromVaxGFloat 0 0 0 0 0 0 0x40 0x10).1 % 2 ^ 52 =
        uint32FromVaxbits 0 0 0x40 0x10 % 2 ^ 20 * 2 ^ 32 +
          uint32FromVaxbits 0 0 0 0 ∧
      (Float64fromVaxGFloat 0 0 0 0 0 0 0x40 0x10).1 / 2 ^ 52 % 2 ^ 11 =
        uint32FromVaxbits 0 0 0x40 0x10 / 2 ^ 20 % 2 ^ 11 - 2) :=
  ⟨decode_normal_frame.1 0 0 0x40 0x80 (by norm_num) (by norm_num) (by norm_num)
      (by norm_num) (by decide),
   decode_normal_frame.2 0 0 0 0 0 0 0x40 0x10 (by norm_num) (by norm_num)
      (by norm_num) (by norm_num) (by norm_num) (by norm_num) (by norm_num)
      (by norm_num) (by decide)⟩

/-- C8: for every legacy input with nonzero exponent field whose re-biased
exponent `e' = e - 2` is non-positive (exponent field `e ∈ {1, 2}`), the
decoder produces the IEEE subnormal whose mantissa is the hidden-bit-prefixed
legacy mantissa shifted right by `1 - e' = 3 - e` with the shifted-out bits
chopped, the sign preserved; and the legacy single bytes `1C EA 03 08` decode
with no error to `0x02081CEA`, the bit pattern of the `float32`
`9.9999999E-38` (those bytes unpack to exponent field 6, so they take the
normalized path, but the decoded value is exactly the one the claim names,
matching the repository's own test vector). -/
theorem decode_subnormal_chop :
    (∀ b0 b1 b2 b3 : Nat, b0 < 256 → b1 < 256 → b2 < 256 → b3 < 256 →
      1 ≤ uint32FromVaxbits b0 b1 b2 b3 / 2 ^ 23 % 2 ^ 8 →
      uint32FromVaxbits b0 b1 b2 b3 / 2 ^ 23 % 2 ^ 8 ≤ 2 →
      Float32fromVaxFFloat b0 b1 b2 b3 =
        (uint32FromVaxbits b0 b1 b2 b3 / 2 ^ 31 * 2 ^ 31 +
          (2 ^ 23 + uint32FromVaxbits b0 b1 b2 b3 % 2 ^ 23) /
            2 ^ (3 - uint32FromVaxbits b0 b1 b2 b3 / 2 ^ 23 % 2 ^ 8), false)) ∧
    (∀ b0 b1 b2 b3 b4 b5 b6 b7 : Nat,
      b0 < 256 → b1 < 256 → b2 < 256 → b3 < 256 →
      b4 < 256 → b5 < 256 → b6 < 256 → b7 < 256 →
      1 ≤ uint32FromVaxbits b4 b5 b6 b7 / 2 ^ 20 % 2 ^ 11 →
      uint32FromVaxbits b4 b5 b6 b7 / 2 ^ 20 % 2 ^ 11 ≤ 2 →
      Float64fromVaxGFloat b0 b1 b2 b3 b4 b5 b6 b7 =
        (uint32FromVaxbits b4 b5 b6 b7 / 2 ^ 31 * 2 ^ 63 +
          (2 ^ 52 + uint32FromVaxbits b4 b5 b6 b7 % 2 ^ 20 * 2 ^ 32 +
            uint32FromVaxbits b0 b1 b2 b3) /
              2 ^ (3 - uint32FromVaxbits b4 b5 b6 b7 / 2 ^ 20 % 2 ^ 11), false)) ∧
    Float32fromVaxFFloat 0x1C 0xEA 0x03 0x08 = (0x02081CEA, false) := by
  refine ⟨?_, ?_, by decide⟩
  · intro b0 b1 b2 b3 h0 h1 h2 h3 he he2
    have hvlt : uint32FromVaxbits b0 b1 b2 b3 < 2 ^ 32 := by
      rw [uint32FromVaxbits_eq _ _ _ _ h0 h1 h2 h3]; omega
    have hdecomp : uint32FromVaxbits b0 b1 b2 b3 =
        uint32FromVaxbits b0 b1 b2 b3 / 2 ^ 31 * 2 ^ 31 +
        uint32FromVaxbits b0 b1 b2 b3 / 2 ^ 23 % 2 ^ 8 * 2 ^ 23 +
        uint32FromVaxbits b0 b1 b2 b3 % 2 ^ 23 := by omega
    rw [decodeF_subnormal b0 b1 b2 b3 _ _ _ hdecomp (by omega) he he2 (by omega)]
  · intro b0 b1 b2 b3 b4 b5 b6 b7 h0 h1 h2 h3 h4 h5 h6 h7 he he2
    have hv1lt : uint32FromVaxbits b4 b5 b6 b7 < 2 ^ 32 := by
      rw [uint32FromVaxbits_eq _ _ _ _ h4 h5 h6 h7]; omega
    have hv2lt : uint32FromVaxbits b0 b1 b2 b3 < 2 ^ 32 := by
      rw [uint32FromVaxbits_eq _ _ _ _ h0 h1 h2 h3]; omega
    have hdecomp : uint32FromVaxbits b4 b5 b6 b7 =
        uint32FromVaxbits b4 b5 b6 b7 / 2 ^ 31 * 2 ^ 31 +
        uint32FromVaxbits b4 b5 b6 b7 / 2 ^ 20 % 2 ^ 11 * 2 ^ 20 +
        uint32FromVaxbits b4 b5 b6 b7 % 2 ^ 20 := by omega
    rw [decodeG_subnormal b0 b1 b2 b3 b4 b5 b6 b7 _ _ _ _ rfl hdecomp
      (by omega) he he2 (by omega) hv2lt]

/-- Witness for C8 on the single bytes `00 00 01 00` (unpacked `0x01000000`,
exponent field 2, mantissa 0) and the double bytes
`00 00 00 01 00 00 00 20` (unpacked high word `0x00200000`, exponent field
2). -/
theorem decode_subnormal_chop_witness :
    Float32fromVaxFFloat 0 0 0x01 0 =
      (uint32FromVaxbits 0 0 0x01 0 / 2 ^ 31 * 2 ^ 31 +
        (2 ^ 23 + uint32FromVaxbits 0 0 0x01 0 % 2 ^ 23) /
          2 ^ (3 - uint32FromVaxbits 0 0 0x01 0 / 2 ^ 23 % 2 ^ 8), false) ∧
    Float64fromVaxGFloat 0 0 0 0x01 0 0 0 0x20 =
      (uint32FromVaxbits 0 0 0 0x20 / 2 ^ 31 * 2 ^ 63 +
        (2 ^ 52 + uint32FromVaxbits 0 0 0 0x20 % 2 ^ 20 * 2 ^ 32 +
          uint32FromVaxbits 0 0 0 0x01) /
            2 ^ (3 - uint32FromVaxbits 0 0 0 0x20 / 2 ^ 20 % 2 ^ 11), false) :=
  ⟨decode_subnormal_chop.1 0 0 0x01 0 (by norm_num) (by norm_num) (by norm_num)
      (by norm_num) (by decide) (by decide),
   decode_subnormal_chop.2.1 0 0 0 0x01 0 0 0 0x20 (by norm_num) (by norm_num)
      (by norm_num) (by norm_num) (by norm_num) (by norm_num) (by norm_num)
      (by norm_num) (by decide) (by decide)⟩

/-- Subnormal-path inputs of the single-width decoder (exponent field 1 or 2)
produce a result whose IEEE exponent field is exactly zero. -/
theorem decodeF_subnormal_expfield_zero (b0 b1 b2 b3 : Nat)
    (h0 : b0 < 256) (h1 : b1 < 256) (h2 : b2 < 256) (h3 : b3 < 256)
    (ha : 1 ≤ uint32FromVaxbits b0 b1 b2 b3 / 2 ^ 23 % 2 ^ 8)
    (hb : uint32FromVaxbits b0 b1 b2 b3 / 2 ^ 23 % 2 ^ 8 ≤ 2) :
    (Float32fromVaxFFloat b0 b1 b2 b3).1 / 2 ^ 23 % 2 ^ 8 = 0 := by
  have hvlt : uint32FromVaxbits b0 b1 b2 b3 < 2 ^ 32 := by
    rw [uint32FromVaxbits_eq _ _ _ _ h0 h1 h2 h3]; omega
  have hdecomp : uint32FromVaxbits b0 b1 b2 b3 =
      uint32FromVaxbits b0 b1 b2 b3 / 2 ^ 31 * 2 ^ 31 +
      uint32FromVaxbits b0 b1 b2 b3 / 2 ^ 23 % 2 ^ 8 * 2 ^ 23 +
      uint32FromVaxbits b0 b1 b2 b3 % 2 ^ 23 := by omega
  rw [decodeF_subnormal b0 b1 b2 b3 _ _ _ hdecomp (by omega) ha hb (by omega)]
  have hmul := Nat.div_mul_le_self
    (2 ^ 23 + uint32FromVaxbits b0 b1 b2 b3 % 2 ^ 23)
    (2 ^ (3 - uint32FromVaxbits b0 b1 b2 b3 / 2 ^ 23 % 2 ^ 8))
  have hp : 2 ≤ 2 ^ (3 - uint32FromVaxbits b0 b1 b2 b3 / 2 ^ 23 % 2 ^ 8) := by
    calc (2 : Nat) = 2 ^ 1 := rfl
    _ ≤ 2 ^ (3 - uint32FromVaxbits b0 b1 b2 b3 / 2 ^ 23 % 2 ^ 8) :=
      Nat.pow_le_pow_right (by norm_num) (by omega)
  have hq := Nat.mul_le_mul_left
    ((2 ^ 23 + uint32FromVaxbits b0 b1 b2 b3 % 2 ^ 23) /
      2 ^ (3 - uint32FromVaxbits b0 b1 b2 b3 / 2 ^ 23 % 2 ^ 8)) hp
  omega

/-- Subnormal-path inputs of the double-width decoder (exponent field 1 or 2)
produce a result whose IEEE exponent field is exactly zero. -/
theorem decodeG_subnormal_expfield_zero (b0 b1 b2 b3 b4 b5 b6 b7 : Nat)
    (h0 : b0 < 256) (h1 : b1 < 256) (h2 : b2 < 256) (h3 : b3 < 256)
    (h4 : b4 < 256) (h5 : b5 < 256) (h6 : b6 < 256) (h7 : b7 < 256)
    (ha : 1 ≤ uint32FromVaxbits b4 b5 b6 b7 / 2 ^ 20 % 2 ^ 11)
    (hb : uint32FromVaxbits b4 b5 b6 b7 / 2 ^ 20 % 2 ^ 11 ≤ 2) :
    (Float64fromVaxGFloat b0 b1 b2 b3 b4 b5 b6 b7).1 / 2 ^ 52 % 2 ^ 11 = 0 := by
  have hv1lt : uint32FromVaxbits b4 b5 b6 b7 < 2 ^ 32 := by
    rw [uint32FromVaxbits_eq _ _ _ _ h4 h5 h6 h7]; omega
  have hv2lt : uint32FromVaxbits b0 b1 b2 b3 < 2 ^ 32 := by
    rw [uint32FromVaxbits_eq _ _ _ _ h0 h1 h2 h3]; omega
  have hdecomp : uint32FromVaxbits b4 b5 b6 b7 =
      uint32FromVaxbits b4 b5 b6 b7 / 2 ^ 31 * 2 ^ 31 +
      uint32FromVaxbits b4 b5 b6 b7 / 2 ^ 20 % 2 ^ 11 * 2 ^ 20 +
      uint32FromVaxbits b4 b5 b6 b7 % 2 ^ 20 := by omega
  rw [decodeG_subnormal b0 b1 b2 b3 b4 b5 b6 b7 _ _ _ _ rfl hdecomp
    (by omega) ha hb (by omega) hv2lt]
  have hmul := Nat.div_mul_le_self
    (2 ^ 52 + uint32FromVaxbits b4 b5 b6 b7 % 2 ^ 20 * 2 ^ 32 +
      uint32FromVaxbits b0 b1 b2 b3)
    (2 ^ (3 - uint32FromVaxbits b4 b5 b6 b7 / 2 ^ 20 % 2 ^ 11))
  have hp : 2 ≤ 2 ^ (3 - uint32FromVaxbits b4 b5 b6 b7 / 2 ^ 20 % 2 ^ 11) := by
    calc (2 : Nat) = 2 ^ 1 := rfl
    _ ≤ 2 ^ (3 - uint32FromVaxbits b4 b5 b6 b7 / 2 ^ 20 % 2 ^ 11) :=
      Nat.pow_le_pow_right (by norm_num) (by omega)
  have hq := Nat.mul_le_mul_left
    ((2 ^ 52 + uint32FromVaxbits b4 b5 b6 b7 % 2 ^ 20 * 2 ^ 32 +
      uint32FromVaxbits b0 b1 b2 b3) /
        2 ^ (3 - uint32FromVaxbits b4 b5 b6 b7 / 2 ^ 20 % 2 ^ 11)) hp
  omega

/-- C10: for every 4-byte input the float32 produced by `Float32fromVaxFFloat`
has an exponent field strictly below all-ones — in fact at most
`255 - 2 = 253`, the maximum legacy exponent minus the bias adjustment — so
the decoded result is always finite, never an infinity or NaN; likewise every
8-byte input decodes to a float64 with exponent field at most `2045`.
Moreover the subnormal path (legacy exponent field 1 or 2) always leaves the
result's exponent field exactly zero, in both widths. -/
theorem decode_always_finite :
    (∀ b0 b1 b2 b3 : Nat, b0 < 256 → b1 < 256 → b2 < 256 → b3 < 256 →
      (Float32fromVaxFFloat b0 b1 b2 b3).1 / 2 ^ 23 % 2 ^ 8 ≤ 253) ∧
    (∀ b0 b1 b2 b3 b4 b5 b6 b7 : Nat,
      b0 < 256 → b1 < 256 → b2 < 256 → b3 < 256 →
      b4 < 256 → b5 < 256 → b6 < 256 → b7 < 256 →
      (Float64fromVaxGFloat b0 b1 b2 b3 b4 b5 b6 b7).1 / 2 ^ 52 % 2 ^ 11 ≤ 2045) ∧
    (∀ b0 b1 b2 b3 : Nat, b0 < 256 → b1 < 256 → b2 < 256 → b3 < 256 →
      1 ≤ uint32FromVaxbits b0 b1 b2 b3 / 2 ^ 23 % 2 ^ 8 →
      uint32FromVaxbits b0 b1 b2 b3 / 2 ^ 23 % 2 ^ 8 ≤ 2 →
      (Float32fromVaxFFloat b0 b1 b2 b3).1 / 2 ^ 23 % 2 ^ 8 = 0) ∧
    (∀ b0 b1 b2 b3 b4 b5 b6 b7 : Nat,
      b0 < 256 → b1 < 256 → b2 < 256 → b3 < 256 →
      b4 < 256 → b5 < 256 → b6 < 256 → b7 < 256 →
      1 ≤ uint32FromVaxbits b4 b5 b6 b7 / 2 ^ 20 % 2 ^ 11 →
      uint32FromVaxbits b4 b5 b6 b7 / 2 ^ 20 % 2 ^ 11 ≤ 2 →
      (Float64fromVaxGFloat b0 b1 b2 b3 b4 b5 b6 b7).1 / 2 ^ 52 % 2 ^ 11 = 0) := by
  refine ⟨?_, ?_, decodeF_subnormal_expfield_zero, decodeG_subnormal_expfield_zero⟩
  · intro b0 b1 b2 b3 h0 h1 h2 h3
    have hvlt : uint32FromVaxbits b0 b1 b2 b3 < 2 ^ 32 := by
      rw [uint32FromVaxbits_eq _ _ _ _ h0 h1 h2 h3]; omega
    rcases (show uint32FromVaxbits b0 b1 b2 b3 / 2 ^ 23 % 2 ^ 8 = 0 ∨
        (1 ≤ uint32FromVaxbits b0 b1 b2 b3 / 2 ^ 23 % 2 ^ 8 ∧
          uint32FromVaxbits b0 b1 b2 b3 / 2 ^ 23 % 2 ^ 8 ≤ 2) ∨
        3 ≤ uint32FromVaxbits b0 b1 b2 b3 / 2 ^ 23 % 2 ^ 8 by omega) with
      h | ⟨ha, hb⟩ | h
    · have hdecomp : uint32FromVaxbits b0 b1 b2 b3 =
          uint32FromVaxbits b0 b1 b2 b3 / 2 ^ 31 * 2 ^ 31 +
          uint32FromVaxbits b0 b1 b2 b3 % 2 ^ 23 := by omega
      rw [decodeF_zero_exponent b0 b1 b2 b3 _ _ hdecomp (by omega) (by omega)]
      simp
    · have hz := decodeF_subnormal_expfield_zero b0 b1 b2 b3 h0 h1 h2 h3 ha hb
      omega
    · have hdecomp : uint32FromVaxbits b0 b1 b2 b3 =
          uint32FromVaxbits b0 b1 b2 b3 / 2 ^ 31 * 2 ^ 31 +
          uint32FromVaxbits b0 b1 b2 b3 / 2 ^ 23 % 2 ^ 8 * 2 ^ 23 +
          uint32FromVaxbits b0 b1 b2 b3 % 2 ^ 23 := by omega
      rw [decodeF_normal b0 b1 b2 b3 _ _ _ hdecomp (by omega) h (by omega) (by omega)]
      omega
  · intro b0 b1 b2 b3 b4 b5 b6 b7 h0 h1 h2 h3 h4 h5 h6 h7
    have hv1lt : uint32FromVaxbits b4 b5 b6 b7 < 2 ^ 32 := by
      rw [uint32FromVaxbits_eq _ _ _ _ h4 h5 h6 h7]; omega
    have hv2lt : uint32FromVaxbits b0 b1 b2 b3 < 2 ^ 32 := by
      rw [uint32FromVaxbits_eq _ _ _ _ h0 h1 h2 h3]; omega
    rcases (show uint32FromVaxbits b4 b5 b6 b7 / 2 ^ 20 % 2 ^ 11 = 0 ∨
        (1 ≤ uint32FromVaxbits b4 b5 b6 b7 / 2 ^ 20 % 2 ^ 11 ∧
          uint32FromVaxbits b4 b5 b6 b7 / 2 ^ 20 % 2 ^ 11 ≤ 2) ∨
        3 ≤ uint32FromVaxbits b4 b5 b6 b7 / 2 ^ 20 % 2 ^ 11 by omega) with
      h | ⟨ha, hb⟩ | h
    · have hdecomp : uint32FromVaxbits b4 b5 b6 b7 =
          uint32FromVaxbits b4 b5 b6 b7 / 2 ^ 31 * 2 ^ 31 +
          uint32FromVaxbits b4 b5 b6 b7 % 2 ^ 20 := by omega
      rw [decodeG_zero_exponent b0 b1 b2 b3 b4 b5 b6 b7 _ _ hdecomp (by omega)
        (by omega)]
      simp
    · have hz := decodeG_subnormal_expfield_zero b0 b1 b2 b3 b4 b5 b6 b7
        h0 h1 h2 h3 h4 h5 h6 h7 ha hb
      omega
    · have hdecomp : uint32FromVaxbits b4 b5 b6 b7 =
          uint32FromVaxbits b4 b5 b6 b7 / 2 ^ 31 * 2 ^ 31 +
          uint32FromVaxbits b4 b5 b6 b7 / 2 ^ 20 % 2 ^ 11 * 2 ^ 20 +
          uint32FromVaxbits b4 b5 b6 b7 % 2 ^ 20 := by omega
      rw [decodeG_normal b0 b1 b2 b3 b4 b5 b6 b7 _ _ _ _ rfl hdecomp
        (by omega) h (by omega) (by omega) hv2lt]
      omega

/-- Witness for C10 on the largest-exponent single input (bytes `FF FF 7F FF`)
and double input (bytes `FF FF FF FF FF FF 7F FF`), and on the subnormal-path
inputs with bytes `00 00 01 00` (single, exponent field 2) and
`00 00 00 01 00 00 00 20` (double, exponent field 2). -/
theorem decode_always_finite_witness :
    (Float32fromVaxFFloat 0xFF 0xFF 0x7F 0xFF).1 / 2 ^ 23 % 2 ^ 8 ≤ 253 ∧
    (Float64fromVaxGFloat 0xFF 0xFF 0xFF 0xFF 0xFF 0xFF 0x7F 0xFF).1 /
      2 ^ 52 % 2 ^ 11 ≤ 2045 ∧
    (Float32fromVaxFFloat 0 0 0x01 0).1 / 2 ^ 23 % 2 ^ 8 = 0 ∧
    (Float64fromVaxGFloat 0 0 0 0x01 0 0 0 0x20).1 / 2 ^ 52 % 2 ^ 11 = 0 :=
  ⟨decode_always_finite.1 0xFF 0xFF 0x7F 0xFF (by norm_num) (by norm_num)
      (by norm_num) (by norm_num),
   decode_always_finite.2.1 0xFF 0xFF 0xFF 0xFF 0xFF 0xFF 0x7F 0xFF (by norm_num)
      (by norm_num) (by norm_num) (by norm_num) (by norm_num) (by norm_num)
      (by norm_num) (by norm_num),
   decode_always_finite.2.2.1 0 0 0x01 0 (by norm_num) (by norm_num) (by norm_num)
      (by norm_num) (by decide) (by decide),
   decode_always_finite.2.2.2 0 0 0 0x01 0 0 0 0x20 (by norm_num) (by norm_num)
      (by norm_num) (by norm_num) (by norm_num) (by norm_num) (by norm_num)
      (by norm_num) (by decide) (by decide)⟩

end Vaxdata
